import Mathlib

set_option linter.unusedVariables false

/-!
Verification of the ElectroLens `/api/electro-lookup` serverless endpoint.

The endpoint (latest revision, with `meta.quotaWarnings` and `preferredModel`
support) is embedded shallowly: request parsing, provider fallback, search
helpers, shop-link templating and response assembly become pure Lean
functions.  Outbound HTTP calls are modelled by an `Oracle` that fixes, for
each call site, the outcome the external provider would produce (network
exception, HTTP error status, or parsed payload).  The handler additionally
returns a ghost log of which provider helpers were invoked and ghost copies
of intermediate state, so that properties such as "no provider is called" or
"shop links are built from the resolved name" can be stated.
-/

/-- JavaScript/JSON values as produced by `JSON.parse`, used to model the
request body, provider payloads and response bodies of the endpoint. -/
inductive JVal : Type where
  | jNull : JVal
  | jBool (b : Bool) : JVal
  | jNum (n : Int) : JVal
  | jStr (s : String) : JVal
  | jArr (xs : List JVal) : JVal
  | jObj (fields : List (String × JVal)) : JVal
deriving Repr

open JVal

/-- JavaScript truthiness of a value (`NaN` and non-integer numbers are not
modelled; arrays and objects are always truthy). -/
def truthy : JVal → Bool
  | jNull => false
  | jBool b => b
  | jNum n => n != 0
  | jStr s => s != ""
  | jArr _ => true
  | jObj _ => true

/-- Truthiness of a possibly-undefined value (`none` models `undefined`). -/
def truthyO : Option JVal → Bool
  | none => false
  | some v => truthy v

/-- First binding of a key in a JS object's field list (`undefined` if
absent). -/
def getKey (fs : List (String × JVal)) (k : String) : Option JVal :=
  match fs with
  | [] => none
  | (k', v) :: rest => if k' = k then some v else getKey rest k

/-- Read a key with a default, modelling reads whose result is immediately
used for truthiness or coercion (absent keys behave like a falsy value). -/
def getKeyD (fs : List (String × JVal)) (k : String) (d : JVal) : JVal :=
  (getKey fs k).getD d

/-- Property assignment on a JS object: replaces the value in place if the
key exists, otherwise appends the new binding (JS insertion-order
semantics). -/
def setKey (fs : List (String × JVal)) (k : String) (v : JVal) :
    List (String × JVal) :=
  match fs with
  | [] => [(k, v)]
  | (k', w) :: rest =>
    if k' = k then (k', v) :: rest else (k', w) :: setKey rest k v

/-- Own enumerable fields contributed by `{...v}` object spread: objects give
their fields, arrays and strings give index-keyed entries, primitives give
nothing. -/
def spreadFields : JVal → List (String × JVal)
  | jObj fs => fs
  | jArr xs => (xs.enum.map fun p => (toString p.1, p.2))
  | jStr s => (s.data.enum.map fun p => (toString p.1, jStr (String.mk [p.2])))
  | _ => []

mutual

/-- JavaScript string coercion of a value (template literals,
`encodeURIComponent`). Nested arrays are comma-joined, `null` elements
become the empty string, objects stringify to "[object Object]". -/
def jsToString : JVal → String
  | jNull => "null"
  | jBool true => "true"
  | jBool false => "false"
  | jNum n => toString n
  | jStr s => s
  | jArr xs => String.intercalate "," (jsArrStrings xs)
  | jObj _ => "[object Object]"

/-- String coercions of the elements of an array, for array stringification
(`null` becomes the empty string). -/
def jsArrStrings : List JVal → List String
  | [] => []
  | jNull :: vs => "" :: jsArrStrings vs
  | v :: vs => jsToString v :: jsArrStrings vs

end

/-- An `Option String` result as stored in a JSON record (`null` when
absent). -/
def optStrJ : Option String → JVal
  | none => jNull
  | some s => jStr s

/-- JavaScript line terminators, which `.` in a regular expression never
matches. -/
def isLineTerm (c : Char) : Bool :=
  c = '\n' ∨ c = '\r' ∨ c.toNat = 0x2028 ∨ c.toNat = 0x2029

/-- Whitespace trimming as in `String.prototype.trim`. -/
def jsTrim (s : String) : String :=
  String.mk (((s.data.dropWhile Char.isWhitespace).reverse.dropWhile
    Char.isWhitespace).reverse)

/-- Lower-casing as in `String.prototype.toLowerCase` (character-wise). -/
def lowerStr (s : String) : String :=
  String.mk (s.data.map Char.toLower)

/-- Suffix test as in `String.prototype.endsWith`. -/
def strEndsWith (s suffix : String) : Bool :=
  suffix.data.reverse.isPrefixOf s.data.reverse

/-- Substring test on character lists (models `String.prototype.includes`). -/
def listContainsSub (pat : List Char) : List Char → Bool
  | [] => pat.isPrefixOf []
  | c :: rest => pat.isPrefixOf (c :: rest) || listContainsSub pat rest

/-- Substring test on strings (models `String.prototype.includes`). -/
def containsSub (s pat : String) : Bool :=
  listContainsSub pat.data s.data

/-- Characters `encodeURIComponent` leaves unescaped. -/
def isUnreservedChar (c : Char) : Bool :=
  c.isAlpha ∨ c.isDigit ∨
    c ∈ ['-', '_', '.', '!', '~', '*', '\'', '(', ')']

/-- One hexadecimal digit, uppercase. -/
def hexDigit (n : Nat) : Char :=
  if n < 10 then Char.ofNat (48 + n) else Char.ofNat (55 + n)

/-- UTF-8 bytes of a character, as natural numbers. -/
def utf8Bytes (c : Char) : List Nat :=
  let n := c.toNat
  if n < 0x80 then [n]
  else if n < 0x800 then [0xC0 + n / 64, 0x80 + n % 64]
  else if n < 0x10000 then
    [0xE0 + n / 4096, 0x80 + (n / 64) % 64, 0x80 + n % 64]
  else
    [0xF0 + n / 262144, 0x80 + (n / 4096) % 64, 0x80 + (n / 64) % 64,
      0x80 + n % 64]

/-- Percent-escape of a single byte. -/
def pctByte (b : Nat) : List Char :=
  ['%', hexDigit (b / 16), hexDigit (b % 16)]

/-- `encodeURIComponent`: unreserved characters pass through, everything
else is percent-encoded byte by byte. -/
def encodeURIComponentStr (s : String) : String :=
  String.mk ((s.data.map fun c =>
    if isUnreservedChar c then [c] else ((utf8Bytes c).map pctByte).flatten).flatten)

/-- The result object of `extractBase64FromDataUrl`. -/
structure ExtractedImage where
  mimeType : String
  base64 : String
deriving Repr, DecidableEq

/-- The literal `;base64,` that separates MIME type and payload in a data
URL. -/
def b64marker : List Char := ";base64,".data

/-- Rightmost position (at most `n`) at which `pat` occurs in `xs`, looking
downward from `n`; models the greedy choice of `(.+)` in the data-URL
regular expression. -/
def lastPosAux (pat xs : List Char) : Nat → Option Nat
  | 0 => if pat.isPrefixOf xs then some 0 else none
  | n + 1 =>
    if pat.isPrefixOf (xs.drop (n + 1)) then some (n + 1)
    else lastPosAux pat xs n

/-- Rightmost occurrence of `pat` in `xs`. -/
def lastMatchPos (pat xs : List Char) : Option Nat :=
  lastPosAux pat xs xs.length

/-- Core of the data-URL regular expression `^data:(.+);base64,(.*)$` on the
characters after `data:`: the dot never matches a line terminator, `(.+)` is
greedy (rightmost `;base64,`), and the MIME group must be non-empty. -/
def extractCore (rest : List Char) : Option (List Char × List Char) :=
  if rest.all (fun c => ¬ isLineTerm c) then
    match lastMatchPos b64marker rest with
    | some p =>
      if p = 0 then none
      else some (rest.take p, rest.drop (p + b64marker.length))
    | none => none
  else none

/-- `extractBase64FromDataUrl`: `null` unless the argument is a string that
starts with `data:` and matches `^data:(.+);base64,(.*)$`; otherwise the
MIME type and base64 payload. -/
def extractBase64FromDataUrl : JVal → Option ExtractedImage
  | jStr s =>
    if ("data:".data).isPrefixOf s.data then
      match extractCore (s.data.drop 5) with
      | some (m, b) => some ⟨String.mk m, String.mk b⟩
      | none => none
    else none
  | _ => none

example :
    extractBase64FromDataUrl (jStr "data:image/png;base64,AAA") =
      some ⟨"image/png", "AAA"⟩ := by rfl

example :
    extractBase64FromDataUrl (jStr "data:a;base64,b;base64,c") =
      some ⟨"a;base64,b", "c"⟩ := by rfl

example : extractBase64FromDataUrl (jStr "data:;base64,x") = none := by rfl

example :
    extractBase64FromDataUrl (jStr "data:image/png;base64,AA\nBB") = none := by
  rfl

example : encodeURIComponentStr "a b/c" = "a%20b%2Fc" := by rfl

/-- Server environment variables (`process.env`); `none` models an unset
variable, and an empty string is falsy like in JS. -/
structure Env where
  googleApiKey : Option String
  cseApiKey : Option String
  cseCx : Option String
  serperApiKey : Option String
  groqApiKey : Option String
  deepseekApiKey : Option String
deriving Repr

/-- Truthiness of an environment variable. -/
def truthyEnv : Option String → Bool
  | none => false
  | some s => s != ""

/-- An entry of the `quotaWarnings` list. -/
structure QuotaWarning where
  source : String
  status : Nat
  message : String
deriving Repr, DecidableEq

/-- `isQuotaStatus`: the HTTP statuses treated as quota/billing limits. -/
def isQuotaStatus (status : Nat) : Bool :=
  status = 429 || status = 402 || status = 403

/-- JSON rendering of the `quotaWarnings` list. -/
def qwJ (qw : List QuotaWarning) : JVal :=
  jArr (qw.map fun w =>
    jObj [("source", jStr w.source), ("status", jNum w.status),
      ("message", jStr w.message)])

/-- The `meta` object attached to most responses. -/
def metaJ (qw : List QuotaWarning) (backendModel : String) : JVal :=
  jObj [("quotaWarnings", qwJ qw), ("preferredModel", jStr backendModel)]

/-- Outcome of one outbound `fetch` whose successful JSON payload has type
`α`: a thrown network/parse error, a non-ok HTTP status, or a payload. -/
inductive FetchOut (α : Type) : Type where
  | exn : FetchOut α
  | httpError (status : Nat) : FetchOut α
  | ok (payload : α) : FetchOut α
deriving Repr

/-- Outcome of a Gemini `generateContent` call: a thrown error carrying its
message (the code classifies quota errors by that message), or response text
that parsed to a JSON value.  A parse failure of the response text is a
thrown error as well, since it is raised inside the same `try`. -/
inductive GemOut : Type where
  | thrown (msg : String) : GemOut
  | ok (v : JVal) : GemOut
deriving Repr

/-- Outcome of a chat-completion call (Groq/DeepSeek, text or refinement):
thrown error, non-ok HTTP status, missing/empty `choices[0].message.content`,
or content that parsed to a JSON value. -/
inductive ChatOut : Type where
  | exn : ChatOut
  | httpError (status : Nat) : ChatOut
  | noContent : ChatOut
  | ok (v : JVal) : ChatOut
deriving Repr

/-- One item of a Google CSE image-search payload (`data.items`). -/
structure CseItem where
  link : String
deriving Repr, DecidableEq

/-- One item of a Serper image-search payload (`data.images`); empty string
models an absent field. -/
structure SerperImg where
  imageUrl : String
  thumbnailUrl : String
  link : String
deriving Repr, DecidableEq

/-- One organic result of a datasheet search payload. -/
structure RefItem where
  link : String
  title : String
  snippet : String
deriving Repr, DecidableEq

/-- A reference entry accumulated from datasheet search results. -/
structure Reference where
  title : String
  url : String
  snippet : String
deriving Repr, DecidableEq

/-- JSON rendering of the `references` array. -/
def refsJ (rs : List Reference) : JVal :=
  jArr (rs.map fun r =>
    jObj [("title", jStr r.title), ("url", jStr r.url),
      ("snippet", jStr r.snippet)])

/-- Fixed outcomes of every outbound call the handler can make, one slot per
call site. -/
structure Oracle where
  gemini : GemOut
  groqText : ChatOut
  deepseekText : ChatOut
  cseImgReal : FetchOut (List CseItem)
  cseImgUsage : FetchOut (List CseItem)
  cseImgPinout : FetchOut (List CseItem)
  serperImgReal : FetchOut (List SerperImg)
  serperImgUsage : FetchOut (List SerperImg)
  serperImgPinout : FetchOut (List SerperImg)
  cseDatasheet : FetchOut (List RefItem)
  serperDatasheet : FetchOut (List RefItem)
  groqRefineOut : ChatOut
  deepseekRefineOut : ChatOut
deriving Repr

/-- Ghost log entries: one per helper invocation (body parse, generation,
search or refinement); used to state which providers a run consulted. -/
inductive Event : Type where
  | parseBody : Event
  | gemini : Event
  | groqText : Event
  | deepseekText : Event
  | cseImage : Event
  | serperImage : Event
  | cseSearch : Event
  | serperSearch : Event
  | groqRefineCall : Event
  | deepseekRefineCall : Event
deriving Repr, DecidableEq

/-- First link of a CSE image payload (`data.items?.[0]?.link || null`). -/
def cseFirstLink : List CseItem → Option String
  | [] => none
  | it :: _ => if it.link = "" then none else some it.link

/-- First image URL of a Serper payload
(`first.imageUrl || first.thumbnailUrl || first.link || null`). -/
def serperFirstUrl : List SerperImg → Option String
  | [] => none
  | it :: _ =>
    if it.imageUrl ≠ "" then some it.imageUrl
    else if it.thumbnailUrl ≠ "" then some it.thumbnailUrl
    else if it.link ≠ "" then some it.link
    else none

/-- `googleImageSearch`: guarded by CSE credentials and a truthy query; on a
non-ok HTTP response a quota-ish status appends a warning; exceptions and
errors degrade to `null`. -/
def googleImageSearch (env : Env) (query : JVal)
    (out : FetchOut (List CseItem)) (qw : List QuotaWarning) :
    Option String × List QuotaWarning × List Event :=
  if ¬ truthyEnv env.cseApiKey ∨ ¬ truthyEnv env.cseCx ∨ ¬ truthy query then
    (none, qw, [.cseImage])
  else
    match out with
    | .exn => (none, qw, [.cseImage])
    | .httpError s =>
      (none,
        (if isQuotaStatus s then
          qw ++ [⟨"google_cse_images", s,
            "Google Custom Search image quota or billing limit reached."⟩]
        else qw), [.cseImage])
    | .ok items => (cseFirstLink items, qw, [.cseImage])

/-- `serperImageSearch`: guarded by the Serper key and a truthy query; quota
statuses append a warning; failures degrade to `null`. -/
def serperImageSearch (env : Env) (query : JVal)
    (out : FetchOut (List SerperImg)) (qw : List QuotaWarning) :
    Option String × List QuotaWarning × List Event :=
  if ¬ truthyEnv env.serperApiKey ∨ ¬ truthy query then
    (none, qw, [.serperImage])
  else
    match out with
    | .exn => (none, qw, [.serperImage])
    | .httpError s =>
      (none,
        (if isQuotaStatus s then
          qw ++ [⟨"serper_images", s,
            "Serper image search quota or billing limit reached."⟩]
        else qw), [.serperImage])
    | .ok imgs => (serperFirstUrl imgs, qw, [.serperImage])

/-- `smartImageSearch`: Google CSE first, Serper exactly once as fallback
when Google yields nothing. -/
def smartImageSearch (env : Env) (query : JVal)
    (gOut : FetchOut (List CseItem)) (sOut : FetchOut (List SerperImg))
    (qw : List QuotaWarning) :
    Option String × List QuotaWarning × List Event :=
  if ¬ truthy query then (none, qw, [])
  else
    let g := googleImageSearch env query gOut qw
    match g.1 with
    | some url => (some url, g.2.1, g.2.2)
    | none =>
      let s := serperImageSearch env query sOut g.2.1
      (s.1, s.2.1, g.2.2 ++ s.2.2)

/-- Datasheet/reference scan shared by the CSE and Serper variants: first
link ending in `.pdf` or containing `datasheet` becomes the datasheet URL,
and up to four references are collected. -/
def datasheetScan (items : List RefItem) :
    Option String × List Reference :=
  items.foldl
    (fun acc it =>
      let dsu :=
        if acc.1.isNone ∧
            (strEndsWith it.link ".pdf" ∨
              containsSub (lowerStr it.link) "datasheet")
          then some it.link else acc.1
      let refs :=
        if acc.2.length < 4 then acc.2 ++ [⟨it.title, it.link, it.snippet⟩]
        else acc.2
      (dsu, refs))
    (none, [])

/-- `googleDatasheetAndReferences`: CSE search for `<name> datasheet pdf`. -/
def googleDatasheetAndReferences (env : Env) (name : JVal)
    (out : FetchOut (List RefItem)) (qw : List QuotaWarning) :
    (Option String × List Reference) × List QuotaWarning × List Event :=
  if ¬ truthyEnv env.cseApiKey ∨ ¬ truthyEnv env.cseCx ∨ ¬ truthy name then
    ((none, []), qw, [.cseSearch])
  else
    match out with
    | .exn => ((none, []), qw, [.cseSearch])
    | .httpError s =>
      ((none, []),
        (if isQuotaStatus s then
          qw ++ [⟨"google_cse_search", s,
            "Google Custom Search quota or billing limit reached."⟩]
        else qw), [.cseSearch])
    | .ok items => (datasheetScan items, qw, [.cseSearch])

/-- `serperDatasheetSearch`: Serper web search for `<name> datasheet pdf`. -/
def serperDatasheetSearch (env : Env) (name : JVal)
    (out : FetchOut (List RefItem)) (qw : List QuotaWarning) :
    (Option String × List Reference) × List QuotaWarning × List Event :=
  if ¬ truthyEnv env.serperApiKey ∨ ¬ truthy name then
    ((none, []), qw, [.serperSearch])
  else
    match out with
    | .exn => ((none, []), qw, [.serperSearch])
    | .httpError s =>
      ((none, []),
        (if isQuotaStatus s then
          qw ++ [⟨"serper_search", s,
            "Serper search quota or billing limit reached."⟩]
        else qw), [.serperSearch])
    | .ok items => (datasheetScan items, qw, [.serperSearch])

/-- `fetchDatasheetAndReferences`: Google CSE first; Serper is consulted
exactly once, only when the CSE result lacks a datasheet URL or has no
references, and fills exactly the missing parts. -/
def fetchDatasheetAndReferences (env : Env) (name : JVal)
    (gOut sOut : FetchOut (List RefItem)) (qw : List QuotaWarning) :
    (Option String × List Reference) × List QuotaWarning × List Event :=
  if ¬ truthy name then ((none, []), qw, [])
  else
    let g := googleDatasheetAndReferences env name gOut qw
    if g.1.1.isSome ∧ g.1.2 ≠ [] then g
    else
      let s := serperDatasheetSearch env name sOut g.2.1
      let dsu := match g.1.1 with | some u => some u | none => s.1.1
      let refs := if g.1.2 = [] then s.1.2 else g.1.2
      ((dsu, refs), s.2.1, g.2.2 ++ s.2.2)

/-- `generateShopLinks`: the four fixed marketplace URL templates
instantiated with the URL-encoded (string-coerced) name. -/
def generateShopLinks (nameOrQuery : JVal) : JVal :=
  let q := encodeURIComponentStr
    (if truthy nameOrQuery then jsToString nameOrQuery else "")
  jObj
    [("shopee", jStr ("https://shopee.ph/search?keyword=" ++ q)),
     ("lazada", jStr ("https://www.lazada.com.ph/tag/" ++ q ++ "/")),
     ("amazon", jStr ("https://www.amazon.com/s?k=" ++ q)),
     ("aliexpress",
       jStr ("https://www.aliexpress.com/wholesale?SearchText=" ++ q))]


/-- The JSON body of the parsed request: destructured `image`, `queryText`
and `preferredModel` fields (`none` models `undefined`). -/
structure ReqBody where
  image : Option JVal
  queryText : Option JVal
  preferredModel : Option JVal
deriving Repr

/-- An incoming HTTP request: its method and the outcome of reading the JSON
body (`none` when `readJsonBody` rejects — oversized or malformed body). -/
structure Request where
  method : String
  parse : Option ReqBody
  parseErrMsg : String
deriving Repr

/-- An HTTP response: status, JSON body, and the `Allow` header if set. -/
structure Response where
  status : Nat
  body : JVal
  allow : Option String := none
deriving Repr

/-- Result of one handler run: the response, a ghost log of helper
invocations, the final `quotaWarnings` list, and ghost copies of
intermediate state (trimmed query text, the server-built base record, the
value shop links were generated from, the refinement output, the backend
model) for runs that reach the 200 path. -/
structure RunResult where
  resp : Response
  events : List Event
  qw : List QuotaWarning
  safeQT : Option String := none
  baseFields : Option (List (String × JVal)) := none
  shopName : Option JVal := none
  refinedV : Option JVal := none
  backendName : Option String := none
deriving Repr

/-- The placeholder description of the Groq text fallback record. -/
def groqFallbackDesc : String :=
  "Text-only fallback entry. Either the primary model was unavailable " ++
  "or Groq returned an error, so this is a minimal placeholder. " ++
  "Use the datasheet and external links for exact specifications."

/-- The fields of the minimal placeholder record `groqDescribeFromText`
falls back to. -/
def groqFallbackFields (sq : String) : List (String × JVal) :=
  let safeName := if sq ≠ "" then sq else "Unknown electronics item"
  [("name", jStr safeName),
     ("category", jStr "Other"),
     ("description", jStr groqFallbackDesc),
     ("typical_uses", jArr []),
     ("where_to_buy", jArr []),
     ("key_specs", jArr []),
     ("datasheet_hint", jStr
       (if safeName ≠ "" then safeName ++ " datasheet pdf"
        else "electronics component datasheet pdf")),
     ("project_ideas", jArr []),
     ("common_mistakes", jArr []),
     ("image_search_query", jStr
       (if safeName ≠ "" then safeName else "electronics component"))]

/-- The minimal placeholder record `groqDescribeFromText` falls back to. -/
def groqFallbackJson (sq : String) : JVal :=
  jObj (groqFallbackFields sq)

/-- `groqDescribeFromText`: Groq text-only description; every failure mode
returns the placeholder record and records a warning, success returns the
parsed model output. -/
def groqDescribeFromText (env : Env) (sq : String) (out : ChatOut)
    (qw : List QuotaWarning) : JVal × List QuotaWarning × List Event :=
  let fallback := groqFallbackJson sq
  if ¬ truthyEnv env.groqApiKey then
    (fallback,
      qw ++ [⟨"groq_text_fallback", 500,
        "GROQ_API_KEY not set. Using simple text-only fallback for manual search."⟩],
      [.groqText])
  else
    match out with
    | .httpError s =>
      (fallback,
        qw ++ [if isQuotaStatus s then
          ⟨"groq_text_fallback", s,
            "Groq text-only quota or billing limit reached. Using simple fallback instead."⟩
        else
          ⟨"groq_text_fallback", s,
            "Groq text-only returned HTTP " ++ toString s ++
              ". Using simple fallback instead."⟩],
        [.groqText])
    | .noContent =>
      (fallback,
        qw ++ [⟨"groq_text_fallback", 500,
          "Groq text fallback returned empty content. Using simple fallback instead."⟩],
        [.groqText])
    | .exn =>
      (fallback,
        qw ++ [⟨"groq_text_fallback", 500,
          "Groq text fallback threw an error. Using simple fallback instead."⟩],
        [.groqText])
    | .ok v => (v, qw, [.groqText])

/-- The fields of the minimal placeholder record
`deepseekDescribeFromText` falls back to. -/
def deepseekFallbackFields (sq : String) : List (String × JVal) :=
  let safeName := if sq ≠ "" then sq else "Unknown electronics item"
  [("name", jStr safeName),
     ("category", jStr "Other"),
     ("description", jStr
       ("Text-only fallback entry. Either DeepSeek was unavailable " ++
        "or returned an error, so this is a minimal placeholder. " ++
        "Use the datasheet and external links for exact specifications.")),
     ("typical_uses", jArr []),
     ("where_to_buy", jArr []),
     ("key_specs", jArr []),
     ("datasheet_hint", jStr
       (if safeName ≠ "" then safeName ++ " datasheet pdf"
        else "electronics component datasheet pdf")),
     ("project_ideas", jArr []),
     ("common_mistakes", jArr []),
     ("image_search_query", jStr
       (if safeName ≠ "" then safeName else "electronics component"))]

/-- The minimal placeholder record `deepseekDescribeFromText` falls back
to. -/
def deepseekFallbackJson (sq : String) : JVal :=
  jObj (deepseekFallbackFields sq)

/-- `deepseekDescribeFromText`: DeepSeek text-only description with the same
fallback discipline as the Groq one. -/
def deepseekDescribeFromText (env : Env) (sq : String) (out : ChatOut)
    (qw : List QuotaWarning) : JVal × List QuotaWarning × List Event :=
  let fallback := deepseekFallbackJson sq
  if ¬ truthyEnv env.deepseekApiKey then
    (fallback,
      qw ++ [⟨"deepseek_text_fallback", 500,
        "DEEPSEEK_API_KEY not set. Using simple text-only fallback for manual search."⟩],
      [.deepseekText])
  else
    match out with
    | .httpError s =>
      (fallback,
        qw ++ [if isQuotaStatus s then
          ⟨"deepseek_text_fallback", s,
            "DeepSeek text quota or billing limit reached. Using simple fallback instead."⟩
        else
          ⟨"deepseek_text_fallback", s,
            "DeepSeek text returned HTTP " ++ toString s ++
              ". Using simple fallback instead."⟩],
        [.deepseekText])
    | .noContent =>
      (fallback,
        qw ++ [⟨"deepseek_text_fallback", 500,
          "DeepSeek text returned empty content. Using simple fallback instead."⟩],
        [.deepseekText])
    | .exn =>
      (fallback,
        qw ++ [⟨"deepseek_text_fallback", 500,
          "DeepSeek text threw an error. Using simple fallback instead."⟩],
        [.deepseekText])
    | .ok v => (v, qw, [.deepseekText])

/-- `groqRefine`: encyclopedia refinement via Groq; every failure mode
returns the base record unchanged, and a quota-ish HTTP status additionally
records a warning. -/
def groqRefine (env : Env) (base : JVal) (out : ChatOut)
    (qw : List QuotaWarning) : JVal × List QuotaWarning × List Event :=
  if ¬ truthyEnv env.groqApiKey then (base, qw, [.groqRefineCall])
  else
    match out with
    | .httpError s =>
      (base,
        (if isQuotaStatus s then
          qw ++ [⟨"groq_refine", s,
            "Groq refinement quota or billing limit reached."⟩]
        else qw), [.groqRefineCall])
    | .noContent => (base, qw, [.groqRefineCall])
    | .exn => (base, qw, [.groqRefineCall])
    | .ok v => (v, qw, [.groqRefineCall])

/-- `deepseekRefine`: encyclopedia refinement via DeepSeek, same discipline
as `groqRefine`. -/
def deepseekRefine (env : Env) (base : JVal) (out : ChatOut)
    (qw : List QuotaWarning) : JVal × List QuotaWarning × List Event :=
  if ¬ truthyEnv env.deepseekApiKey then (base, qw, [.deepseekRefineCall])
  else
    match out with
    | .httpError s =>
      (base,
        (if isQuotaStatus s then
          qw ++ [⟨"deepseek_refine", s,
            "DeepSeek refinement quota or billing limit reached."⟩]
        else qw), [.deepseekRefineCall])
    | .noContent => (base, qw, [.deepseekRefineCall])
    | .exn => (base, qw, [.deepseekRefineCall])
    | .ok v => (v, qw, [.deepseekRefineCall])

/-- The message-based quota classification of a thrown Gemini error. -/
def isGemQuotaMsg (msg : String) : Bool :=
  containsSub msg "429" || containsSub msg "You exceeded your current quota" ||
    containsSub msg "Quota exceeded for metric"

/-- The `catch`-all 500 response (`Internal server error in electro-lookup.`
with the accumulated quota warnings in `meta`). -/
def catch500 (details : String) (qw : List QuotaWarning) (evs : List Event) :
    RunResult :=
  { resp :=
      { status := 500,
        body := jObj
          [("error", jStr "Internal server error in electro-lookup."),
           ("details", jStr details),
           ("meta", jObj [("quotaWarnings", qwJ qw)])] },
    events := evs, qw := qw }

/-- Result of the generation stage when it does not respond early: the base
record value, the backend model chosen so far, and the warnings and helper
invocations accumulated. -/
structure GenResult where
  baseV : JVal
  backend : String
  qw : List QuotaWarning
  evs : List Event
deriving Repr

/-- Stage 1 of the handler: obtain the base record from Gemini (image mode
requires it; text mode dispatches on `preferredModel` with Groq/DeepSeek
fallbacks), or respond early with 400/429/500. -/
def phase1 (env : Env) (o : Oracle) (image : Option JVal) (sq pm : String) :
    RunResult ⊕ GenResult :=
  if truthyO image then
    if ¬ truthyEnv env.googleApiKey then
      let qw1 : List QuotaWarning :=
        [⟨"gemini", 500,
          "GOOGLE_API_KEY is missing on the server. Image-based modes cannot run."⟩]
      .inl
        { resp :=
            { status := 500,
              body := jObj
                [("error", jStr
                   "Server misconfigured: GOOGLE_API_KEY missing. Camera and upload analysis require Gemini Vision."),
                 ("meta", metaJ qw1 pm)] },
          events := [], qw := qw1 }
    else
      match extractBase64FromDataUrl (image.getD jNull) with
      | none =>
        .inl
          { resp :=
              { status := 400,
                body := jObj
                  [("error", jStr
                     "Image must be a base64 data URL like data:image/jpeg;base64,..."),
                   ("meta", metaJ [] pm)] },
            events := [], qw := [] }
      | some _ =>
        match o.gemini with
        | .ok v => .inr ⟨v, pm, [], [.gemini]⟩
        | .thrown msg =>
          if isGemQuotaMsg msg then
            let qw1 : List QuotaWarning :=
              [⟨"gemini", 429,
                "Gemini free-tier quota exceeded for model gemini-2.5-flash. Image-based analysis may be unavailable."⟩]
            .inl
              { resp :=
                  { status := 429,
                    body := jObj
                      [("error", jStr "Gemini vision quota exceeded."),
                       ("details", jStr
                         "Camera and upload analysis require Gemini (vision). Your free-tier Gemini quota is used up. Try again after the quota resets or upgrade your Gemini plan."),
                       ("meta", metaJ qw1 pm)] },
                events := [.gemini], qw := qw1 }
          else
            .inl
              { resp :=
                  { status := 500,
                    body := jObj
                      [("error", jStr
                         "Failed to call Gemini generateContent for image."),
                       ("details", jStr msg),
                       ("meta", metaJ [] pm)] },
                events := [.gemini], qw := [] }
  else
    if pm = "groq" then
      let r := groqDescribeFromText env sq o.groqText []
      .inr ⟨r.1, "groq", r.2.1, r.2.2⟩
    else if pm = "deepseek" then
      let r := deepseekDescribeFromText env sq o.deepseekText []
      .inr ⟨r.1, "deepseek", r.2.1, r.2.2⟩
    else
      if ¬ truthyEnv env.googleApiKey then
        let qwg : List QuotaWarning :=
          [⟨"gemini", 500,
            "GOOGLE_API_KEY is missing. Falling back to Groq text-only description."⟩]
        let r := groqDescribeFromText env sq o.groqText qwg
        .inr ⟨r.1, "groq", r.2.1, r.2.2⟩
      else
        match o.gemini with
        | .ok v => .inr ⟨v, (if pm = "gemini" then "gemini" else "auto"), [], [.gemini]⟩
        | .thrown msg =>
          if isGemQuotaMsg msg then
            let qwg : List QuotaWarning :=
              [⟨"gemini", 429,
                "Gemini free-tier quota exceeded for text. Falling back to Groq text description."⟩]
            let r := groqDescribeFromText env sq o.groqText qwg
            .inr ⟨r.1, "groq", r.2.1, .gemini :: r.2.2⟩
          else
            .inl
              { resp :=
                  { status := 500,
                    body := jObj
                      [("error", jStr
                         "Failed to call Gemini generateContent for text."),
                       ("details", jStr msg),
                       ("meta", metaJ [] pm)] },
                events := [.gemini], qw := [] }

/-- The value shop links are generated from:
`baseJson.name || safeQueryText || "electronics"`. -/
def resolveShopName (fs : List (String × JVal)) (sq : String) : JVal :=
  let nm := getKeyD fs "name" jNull
  if truthy nm then nm else if sq ≠ "" then jStr sq else jStr "electronics"

/-- Result of the enrichment stage: the base record with `real_image`,
`usage_image`, `pinout_image`, `datasheet_url`, `references` and
`shop_links` set, the value shop links were generated from, and the
accumulated warnings and helper invocations. -/
structure Phase2Out where
  fields : List (String × JVal)
  shopName : JVal
  qw : List QuotaWarning
  evs : List Event
deriving Repr

/-- Stage 2 of the handler on an object-shaped base record: image searches
driven by `image_search_query || name || safeQueryText`, datasheet and
reference search driven by `name || safeQueryText`, and shop links. -/
def phase2Fields (env : Env) (o : Oracle) (fs0 : List (String × JVal))
    (sq : String) (qw0 : List QuotaWarning) : Phase2Out :=
  let isq := getKeyD fs0 "image_search_query" jNull
  let nm0 := getKeyD fs0 "name" jNull
  let nq :=
    if truthy isq then isq
    else if truthy nm0 then nm0
    else if sq ≠ "" then jStr sq
    else jStr "electronics component"
  let r1 := smartImageSearch env nq o.cseImgReal o.serperImgReal qw0
  let r2 := smartImageSearch env
    (jStr (jsToString nq ++ " application circuit electronics example"))
    o.cseImgUsage o.serperImgUsage r1.2.1
  let r3 := smartImageSearch env
    (jStr (jsToString nq ++ " pinout diagram"))
    o.cseImgPinout o.serperImgPinout r2.2.1
  let fs1 := setKey fs0 "real_image" (optStrJ r1.1)
  let fs2 := setKey fs1 "usage_image" (optStrJ r2.1)
  let fs3 := setKey fs2 "pinout_image" (optStrJ r3.1)
  let nm1 := getKeyD fs3 "name" jNull
  let dsName :=
    if truthy nm1 then nm1 else if sq ≠ "" then jStr sq else jStr ""
  let r4 := fetchDatasheetAndReferences env dsName
    o.cseDatasheet o.serperDatasheet r3.2.1
  let fs4 := setKey fs3 "datasheet_url" (optStrJ r4.1.1)
  let fs5 := setKey fs4 "references" (refsJ r4.1.2)
  let shopName := resolveShopName fs5 sq
  let fs6 := setKey fs5 "shop_links" (generateShopLinks shopName)
  { fields := fs6, shopName := shopName, qw := r4.2.1,
    evs := r1.2.2 ++ r2.2.2 ++ r3.2.2 ++ r4.2.2 }

/-- Stage 3a: model-specific refinement dispatch on the backend model. -/
def refineStep (env : Env) (o : Oracle) (backend : String) (base : JVal)
    (qw : List QuotaWarning) : JVal × List QuotaWarning × List Event :=
  if backend = "deepseek" then
    deepseekRefine env base o.deepseekRefineOut qw
  else if backend = "groq" ∨ backend = "auto" then
    groqRefine env base o.groqRefineOut qw
  else (base, qw, [])

/-- Stage 3b: the final 200 record `{...refined, real_image, usage_image,
pinout_image, datasheet_url, references, shop_links, meta}` with the
`official_store` fix-up. -/
def finalFields (fs6 : List (String × JVal)) (refined : JVal)
    (qwF : List QuotaWarning) (backend : String) : List (String × JVal) :=
  let ff0 := spreadFields refined
  let ff1 := setKey ff0 "real_image" (getKeyD fs6 "real_image" jNull)
  let ff2 := setKey ff1 "usage_image" (getKeyD fs6 "usage_image" jNull)
  let ff3 := setKey ff2 "pinout_image" (getKeyD fs6 "pinout_image" jNull)
  let ff4 := setKey ff3 "datasheet_url" (getKeyD fs6 "datasheet_url" jNull)
  let ff5 := setKey ff4 "references" (getKeyD fs6 "references" jNull)
  let ff6 := setKey ff5 "shop_links" (getKeyD fs6 "shop_links" jNull)
  let ff7 := setKey ff6 "meta" (metaJ qwF backend)
  if truthy (getKeyD fs6 "official_store" jNull) ∧
      ¬ truthy (getKeyD ff7 "official_store" jNull) then
    setKey ff7 "official_store" (getKeyD fs6 "official_store" jNull)
  else ff7

/-- Stages 2 and 3 of the handler on an object-shaped base record:
enrichment, refinement, and the final 200 response with server-computed
URLs re-imposed. -/
def phase23 (env : Env) (o : Oracle) (fs0 : List (String × JVal))
    (backend sq : String) (qw0 : List QuotaWarning) (evs0 : List Event) :
    RunResult :=
  let p2 := phase2Fields env o fs0 sq qw0
  let rf := refineStep env o backend (jObj p2.fields) p2.qw
  let ffF := finalFields p2.fields rf.1 rf.2.1 backend
  { resp := { status := 200, body := jObj ffF },
    events := evs0 ++ p2.evs ++ rf.2.2,
    qw := rf.2.1,
    safeQT := some sq, baseFields := some p2.fields,
    shopName := some p2.shopName,
    refinedV := some rf.1, backendName := some backend }

/-- `safeQueryText`: the trimmed `queryText` of the body when it is a
string, empty otherwise. -/
def safeQueryTextOf (b : ReqBody) : String :=
  jsTrim (match b.queryText with | some (jStr s) => s | _ => "")

/-- The validated `preferredModel` of the body: lower-cased when a string,
and forced to `auto` unless it is one of the four allowed values. -/
def preferredModelOf (b : ReqBody) : String :=
  let preferredRaw :=
    match b.preferredModel with | some (jStr s) => lowerStr s | _ => "auto"
  if ["auto", "gemini", "groq", "deepseek"].contains preferredRaw then
    preferredRaw
  else "auto"

/-- The main request handler `/api/electro-lookup`: method check, body
parse, input validation, generation, enrichment, refinement, response. -/
def handler (env : Env) (req : Request) (o : Oracle) : RunResult :=
  if req.method ≠ "POST" then
    { resp :=
        { status := 405, body := jObj [("error", jStr "Method not allowed")],
          allow := some "POST" },
      events := [], qw := [] }
  else
    match req.parse with
    | none => catch500 req.parseErrMsg [] [.parseBody]
    | some b =>
      if ¬ truthyO b.image ∧ safeQueryTextOf b = "" then
        { resp :=
            { status := 400,
              body := jObj
                [("error", jStr "Provide an image or queryText."),
                 ("meta", metaJ [] (preferredModelOf b))] },
          events := [.parseBody], qw := [] }
      else
        match phase1 env o b.image (safeQueryTextOf b) (preferredModelOf b) with
        | .inl rr => { rr with events := .parseBody :: rr.events }
        | .inr g =>
          match g.baseV with
          | jObj fs =>
            phase23 env o fs g.backend (safeQueryTextOf b) g.qw
              (.parseBody :: g.evs)
          | jArr xs =>
            phase23 env o (spreadFields (jArr xs)) g.backend (safeQueryTextOf b)
              g.qw (.parseBody :: g.evs)
          | jNull =>
            catch500 "Cannot read properties of null" g.qw (.parseBody :: g.evs)
          | _ =>
            let nq :=
              if safeQueryTextOf b ≠ "" then jStr (safeQueryTextOf b)
              else jStr "electronics component"
            let r := smartImageSearch env nq o.cseImgReal o.serperImgReal g.qw
            catch500 "Cannot create property on a primitive value" r.2.1
              ((.parseBody :: g.evs) ++ r.2.2)

/-- Fields of a run's response body (error and success bodies are always
objects). -/
def bodyFields (rr : RunResult) : List (String × JVal) :=
  match rr.resp.body with
  | jObj fs => fs
  | _ => []

/-- The `quotaWarnings` list found under the `meta` key of a response
body. -/
def bodyMetaQuotaWarnings (rr : RunResult) : Option JVal :=
  match getKey (bodyFields rr) "meta" with
  | some (jObj ms) => getKey ms "quotaWarnings"
  | _ => none

/-- The six server-computed fields re-imposed after refinement. -/
def serverKeys : List String :=
  ["real_image", "usage_image", "pinout_image", "datasheet_url",
   "references", "shop_links"]

/-- The generation-schema fields of the base record. -/
def genKeys : List String :=
  ["name", "category", "description", "typical_uses", "where_to_buy",
   "key_specs", "project_ideas", "common_mistakes", "datasheet_hint",
   "image_search_query"]

/-- An environment with every provider credential unset. -/
def envNoKeys : Env :=
  { googleApiKey := none, cseApiKey := none, cseCx := none,
    serperApiKey := none, groqApiKey := none, deepseekApiKey := none }

/-- An environment with only the Gemini key set. -/
def envGeminiOnly : Env :=
  { envNoKeys with googleApiKey := some "gk" }

/-- An environment with every provider credential set. -/
def envAllKeys : Env :=
  { googleApiKey := some "gk", cseApiKey := some "ck", cseCx := some "cx",
    serperApiKey := some "sk", groqApiKey := some "qk",
    deepseekApiKey := some "dk" }

/-- An oracle on which every outbound provider call fails. -/
def oracleAllFail : Oracle :=
  { gemini := .thrown "fetch failed", groqText := .httpError 500,
    deepseekText := .httpError 500, cseImgReal := .httpError 500,
    cseImgUsage := .httpError 500, cseImgPinout := .httpError 500,
    serperImgReal := .httpError 500, serperImgUsage := .httpError 500,
    serperImgPinout := .httpError 500, cseDatasheet := .httpError 500,
    serperDatasheet := .httpError 500, groqRefineOut := .httpError 500,
    deepseekRefineOut := .httpError 500 }

/-- A POST request with a plain text query and no preferred model. -/
def reqTextAuto : Request :=
  { method := "POST",
    parse := some
      { image := none, queryText := some (jStr "led"),
        preferredModel := none },
    parseErrMsg := "" }

/-- A POST request with a text query and `preferredModel: "groq"`. -/
def reqTextGroq : Request :=
  { method := "POST",
    parse := some
      { image := none, queryText := some (jStr "led"),
        preferredModel := some (jStr "groq") },
    parseErrMsg := "" }

/-- A POST request with a text query and `preferredModel: "gemini"`. -/
def reqTextGemini : Request :=
  { method := "POST",
    parse := some
      { image := none, queryText := some (jStr "led"),
        preferredModel := some (jStr "gemini") },
    parseErrMsg := "" }

/-- A POST request carrying a valid base64 image data URL. -/
def reqImage : Request :=
  { method := "POST",
    parse := some
      { image := some (jStr "data:image/png;base64,AAA"), queryText := none,
        preferredModel := none },
    parseErrMsg := "" }

/-- A GET request. -/
def reqGet : Request :=
  { method := "GET",
    parse := some
      { image := none, queryText := some (jStr "led"),
        preferredModel := none },
    parseErrMsg := "" }

/-- A POST request with neither image nor usable query text. -/
def reqEmptyPost : Request :=
  { method := "POST",
    parse := some
      { image := none, queryText := some (jStr "   "),
        preferredModel := none },
    parseErrMsg := "" }

/-- An oracle where Gemini answers an empty JSON object and everything else
fails. -/
def oracleGeminiEmpty : Oracle :=
  { oracleAllFail with gemini := .ok (jObj []) }

/-- An oracle where the Groq text call answers an empty JSON object and the
Groq refinement answers an object with a stray `meta` key. -/
def oracleGroqMeta : Oracle :=
  { oracleAllFail with
    groqText := .ok (jObj []),
    cseImgReal := .ok [], cseImgUsage := .ok [], cseImgPinout := .ok [],
    cseDatasheet := .ok [], serperDatasheet := .ok [],
    groqRefineOut := .ok (jObj [("meta", jStr "x")]) }

theorem getKey_setKey_self (fs : List (String × JVal)) (k : String)
    (v : JVal) : getKey (setKey fs k v) k = some v := by
  induction fs with
  | nil => simp [setKey, getKey]
  | cons h t ih =>
    obtain ⟨k', w⟩ := h
    by_cases hk : k' = k <;> simp [setKey, getKey, hk, ih]

theorem getKey_setKey_ne (fs : List (String × JVal)) (k : String) (v : JVal)
    (k' : String) (h : k ≠ k') :
    getKey (setKey fs k v) k' = getKey fs k' := by
  induction fs with
  | nil => simp [setKey, getKey, h]
  | cons p t ih =>
    obtain ⟨k'', w⟩ := p
    by_cases hk : k'' = k
    · subst hk
      simp [setKey, getKey, h]
    · simp [setKey, getKey, hk, ih]

theorem phase1_inl_ne200 (env : Env) (o : Oracle) (image : Option JVal)
    (sq pm : String) (rr : RunResult)
    (h : phase1 env o image sq pm = .inl rr) : rr.resp.status ≠ 200 := by
  unfold phase1 at h
  repeat' split at h
  all_goals try dsimp only at h
  all_goals
    first
      | (injection h with h2; subst h2; simp)
      | (exact absurd h (by simp))

theorem handler_200_phase23 (env : Env) (req : Request) (o : Oracle)
    (h : (handler env req o).resp.status = 200) :
    ∃ fs bk sq qw evs,
      handler env req o = phase23 env o fs bk sq qw evs := by
  obtain ⟨rr, hE⟩ : ∃ rr, handler env req o = rr := ⟨_, rfl⟩
  rw [hE] at h ⊢
  unfold handler at hE
  repeat' split at hE
  all_goals try (exact ⟨_, _, _, _, _, hE.symm⟩)
  all_goals subst hE
  all_goals try (dsimp only [catch500] at h; omega)
  all_goals
    (rename_i rr1 heq1
     exact absurd h (phase1_inl_ne200 _ _ _ _ _ rr1 heq1))

theorem finalFields_meta (fs6 : List (String × JVal)) (rv : JVal)
    (qwF : List QuotaWarning) (bk : String) :
    getKey (finalFields fs6 rv qwF bk) "meta" = some (metaJ qwF bk) := by
  simp only [finalFields]
  split <;> simp [getKey_setKey_self, getKey_setKey_ne]

theorem finalFields_real_image (fs6 : List (String × JVal)) (rv : JVal)
    (qwF : List QuotaWarning) (bk : String) :
    getKey (finalFields fs6 rv qwF bk) "real_image" =
      some (getKeyD fs6 "real_image" jNull) := by
  simp only [finalFields]
  split <;> simp [getKey_setKey_self, getKey_setKey_ne]

theorem finalFields_usage_image (fs6 : List (String × JVal)) (rv : JVal)
    (qwF : List QuotaWarning) (bk : String) :
    getKey (finalFields fs6 rv qwF bk) "usage_image" =
      some (getKeyD fs6 "usage_image" jNull) := by
  simp only [finalFields]
  split <;> simp [getKey_setKey_self, getKey_setKey_ne]

theorem finalFields_pinout_image (fs6 : List (String × JVal)) (rv : JVal)
    (qwF : List QuotaWarning) (bk : String) :
    getKey (finalFields fs6 rv qwF bk) "pinout_image" =
      some (getKeyD fs6 "pinout_image" jNull) := by
  simp only [finalFields]
  split <;> simp [getKey_setKey_self, getKey_setKey_ne]

theorem finalFields_datasheet_url (fs6 : List (String × JVal)) (rv : JVal)
    (qwF : List QuotaWarning) (bk : String) :
    getKey (finalFields fs6 rv qwF bk) "datasheet_url" =
      some (getKeyD fs6 "datasheet_url" jNull) := by
  simp only [finalFields]
  split <;> simp [getKey_setKey_self, getKey_setKey_ne]

theorem finalFields_references (fs6 : List (String × JVal)) (rv : JVal)
    (qwF : List QuotaWarning) (bk : String) :
    getKey (finalFields fs6 rv qwF bk) "references" =
      some (getKeyD fs6 "references" jNull) := by
  simp only [finalFields]
  split <;> simp [getKey_setKey_self, getKey_setKey_ne]

theorem finalFields_shop_links (fs6 : List (String × JVal)) (rv : JVal)
    (qwF : List QuotaWarning) (bk : String) :
    getKey (finalFields fs6 rv qwF bk) "shop_links" =
      some (getKeyD fs6 "shop_links" jNull) := by
  simp only [finalFields]
  split <;> simp [getKey_setKey_self, getKey_setKey_ne]

theorem finalFields_other (fs6 : List (String × JVal)) (rv : JVal)
    (qwF : List QuotaWarning) (bk : String) (k : String)
    (h1 : k ≠ "real_image") (h2 : k ≠ "usage_image")
    (h3 : k ≠ "pinout_image") (h4 : k ≠ "datasheet_url")
    (h5 : k ≠ "references") (h6 : k ≠ "shop_links") (h7 : k ≠ "meta")
    (h8 : k ≠ "official_store") :
    getKey (finalFields fs6 rv qwF bk) k = getKey (spreadFields rv) k := by
  simp only [finalFields]
  split
  · rw [getKey_setKey_ne _ _ _ _ (Ne.symm h8),
      getKey_setKey_ne _ _ _ _ (Ne.symm h7),
      getKey_setKey_ne _ _ _ _ (Ne.symm h6),
      getKey_setKey_ne _ _ _ _ (Ne.symm h5),
      getKey_setKey_ne _ _ _ _ (Ne.symm h4),
      getKey_setKey_ne _ _ _ _ (Ne.symm h3),
      getKey_setKey_ne _ _ _ _ (Ne.symm h2),
      getKey_setKey_ne _ _ _ _ (Ne.symm h1)]
  · rw [getKey_setKey_ne _ _ _ _ (Ne.symm h7),
      getKey_setKey_ne _ _ _ _ (Ne.symm h6),
      getKey_setKey_ne _ _ _ _ (Ne.symm h5),
      getKey_setKey_ne _ _ _ _ (Ne.symm h4),
      getKey_setKey_ne _ _ _ _ (Ne.symm h3),
      getKey_setKey_ne _ _ _ _ (Ne.symm h2),
      getKey_setKey_ne _ _ _ _ (Ne.symm h1)]

theorem finalFields_official (fs6 : List (String × JVal)) (rv : JVal)
    (qwF : List QuotaWarning) (bk : String) :
    getKey (finalFields fs6 rv qwF bk) "official_store" =
      if truthy (getKeyD fs6 "official_store" jNull) ∧
          ¬ truthy (getKeyD (spreadFields rv) "official_store" jNull) then
        some (getKeyD fs6 "official_store" jNull)
      else getKey (spreadFields rv) "official_store" := by
  simp only [finalFields, getKeyD]
  rw [apply_ite (fun fs => getKey fs "official_store")]
  simp [getKey_setKey_self, getKey_setKey_ne]

theorem phase2Fields_shop_links (env : Env) (o : Oracle)
    (fs0 : List (String × JVal)) (sq : String) (qw0 : List QuotaWarning) :
    getKey (phase2Fields env o fs0 sq qw0).fields "shop_links" =
      some (generateShopLinks (phase2Fields env o fs0 sq qw0).shopName) := by
  simp only [phase2Fields]
  simp [getKey_setKey_self]

theorem phase2Fields_shopName (env : Env) (o : Oracle)
    (fs0 : List (String × JVal)) (sq : String) (qw0 : List QuotaWarning) :
    (phase2Fields env o fs0 sq qw0).shopName =
      resolveShopName (phase2Fields env o fs0 sq qw0).fields sq := by
  simp only [phase2Fields, resolveShopName, getKeyD]
  simp [getKey_setKey_ne]

theorem phase2Fields_passthrough (env : Env) (o : Oracle)
    (fs0 : List (String × JVal)) (sq : String) (qw0 : List QuotaWarning)
    (k : String)
    (h1 : k ≠ "real_image") (h2 : k ≠ "usage_image")
    (h3 : k ≠ "pinout_image") (h4 : k ≠ "datasheet_url")
    (h5 : k ≠ "references") (h6 : k ≠ "shop_links") :
    getKey (phase2Fields env o fs0 sq qw0).fields k = getKey fs0 k := by
  simp only [phase2Fields]
  rw [getKey_setKey_ne _ _ _ _ (Ne.symm h6),
    getKey_setKey_ne _ _ _ _ (Ne.symm h5),
    getKey_setKey_ne _ _ _ _ (Ne.symm h4),
    getKey_setKey_ne _ _ _ _ (Ne.symm h3),
    getKey_setKey_ne _ _ _ _ (Ne.symm h2),
    getKey_setKey_ne _ _ _ _ (Ne.symm h1)]

theorem phase2Fields_server_isSome (env : Env) (o : Oracle)
    (fs0 : List (String × JVal)) (sq : String) (qw0 : List QuotaWarning)
    (k : String) (hk : k ∈ serverKeys) :
    (getKey (phase2Fields env o fs0 sq qw0).fields k).isSome := by
  simp only [serverKeys, List.mem_cons, List.mem_singleton] at hk
  simp only [phase2Fields]
  rcases hk with rfl | rfl | rfl | rfl | rfl | rfl | h
  all_goals try simp [getKey_setKey_self, getKey_setKey_ne]
  all_goals simp at h

theorem phase23_bodyFields (env : Env) (o : Oracle)
    (fs0 : List (String × JVal)) (bk sq : String)
    (qw0 : List QuotaWarning) (evs0 : List Event) :
    bodyFields (phase23 env o fs0 bk sq qw0 evs0) =
      finalFields (phase2Fields env o fs0 sq qw0).fields
        (refineStep env o bk (jObj (phase2Fields env o fs0 sq qw0).fields)
          (phase2Fields env o fs0 sq qw0).qw).1
        (refineStep env o bk (jObj (phase2Fields env o fs0 sq qw0).fields)
          (phase2Fields env o fs0 sq qw0).qw).2.1 bk := by
  simp [phase23, bodyFields]

theorem phase23_ghosts (env : Env) (o : Oracle)
    (fs0 : List (String × JVal)) (bk sq : String)
    (qw0 : List QuotaWarning) (evs0 : List Event) :
    (phase23 env o fs0 bk sq qw0 evs0).resp.status = 200 ∧
    (phase23 env o fs0 bk sq qw0 evs0).baseFields =
      some (phase2Fields env o fs0 sq qw0).fields ∧
    (phase23 env o fs0 bk sq qw0 evs0).shopName =
      some (phase2Fields env o fs0 sq qw0).shopName ∧
    (phase23 env o fs0 bk sq qw0 evs0).safeQT = some sq ∧
    (phase23 env o fs0 bk sq qw0 evs0).backendName = some bk ∧
    (phase23 env o fs0 bk sq qw0 evs0).refinedV =
      some (refineStep env o bk (jObj (phase2Fields env o fs0 sq qw0).fields)
        (phase2Fields env o fs0 sq qw0).qw).1 ∧
    (phase23 env o fs0 bk sq qw0 evs0).qw =
      (refineStep env o bk (jObj (phase2Fields env o fs0 sq qw0).fields)
        (phase2Fields env o fs0 sq qw0).qw).2.1 := by
  refine ⟨rfl, ?_, ?_, ?_, ?_, ?_, ?_⟩ <;> simp [phase23]

/-- C4: for every request whose method is not POST, the handler responds
405 with an `Allow: POST` header and performs no body parsing and no
provider call (empty invocation log), regardless of the request body. -/
theorem non_post_yields_405 (env : Env) (req : Request) (o : Oracle)
    (h : req.method ≠ "POST") :
    (handler env req o).resp.status = 405 ∧
    (handler env req o).resp.allow = some "POST" ∧
    (handler env req o).resp.body =
      jObj [("error", jStr "Method not allowed")] ∧
    (handler env req o).events = [] := by
  simp [handler, h]

/-- Witness for `non_post_yields_405` at a concrete GET request. -/
theorem non_post_yields_405_witness :
    (handler envNoKeys reqGet oracleAllFail).resp.status = 405 ∧
    (handler envNoKeys reqGet oracleAllFail).resp.allow = some "POST" ∧
    (handler envNoKeys reqGet oracleAllFail).resp.body =
      jObj [("error", jStr "Method not allowed")] ∧
    (handler envNoKeys reqGet oracleAllFail).events = [] :=
  non_post_yields_405 envNoKeys reqGet oracleAllFail (by decide)

/-- C3: for every POST request whose parsed body has no truthy `image` and
whose `queryText` is absent, not a string, or trims to the empty string, the
handler responds 400 and invokes no provider (the invocation log holds only
the body parse). -/
theorem missing_input_yields_400 (env : Env) (req : Request) (o : Oracle)
    (b : ReqBody) (hm : req.method = "POST") (hp : req.parse = some b)
    (himg : truthyO b.image = false) (hq : safeQueryTextOf b = "") :
    (handler env req o).resp.status = 400 ∧
    (handler env req o).events = [Event.parseBody] ∧
    (handler env req o).resp.body =
      jObj [("error", jStr "Provide an image or queryText."),
        ("meta", metaJ [] (preferredModelOf b))] := by
  simp [handler, hm, hp, himg, hq]

/-- Witness for `missing_input_yields_400` at a POST request whose
`queryText` is whitespace only. -/
theorem missing_input_yields_400_witness :
    (handler envAllKeys reqEmptyPost oracleAllFail).resp.status = 400 ∧
    (handler envAllKeys reqEmptyPost oracleAllFail).events =
      [Event.parseBody] ∧
    (handler envAllKeys reqEmptyPost oracleAllFail).resp.body =
      jObj [("error", jStr "Provide an image or queryText."),
        ("meta", metaJ [] "auto")] :=
  missing_input_yields_400 envAllKeys reqEmptyPost oracleAllFail
    { image := none, queryText := some (jStr "   "),
      preferredModel := none }
    (by decide) rfl (by decide) (by decide)

/-- C5 counterexample: a valid text-only POST request with
`GOOGLE_API_KEY` missing does not yield 500 — the handler falls back to
the Groq text description and responds 200. -/
theorem missing_gemini_key_can_yield_200 :
    truthyEnv envNoKeys.googleApiKey = false ∧
    reqTextAuto.method = "POST" ∧
    safeQueryTextOf
      { image := none, queryText := some (jStr "led"),
        preferredModel := none } ≠ "" ∧
    (handler envNoKeys reqTextAuto oracleAllFail).resp.status = 200 := by
  refine ⟨rfl, rfl, by decide, rfl⟩

/-- C5 (amended): for every POST request that carries a truthy image, when
`GOOGLE_API_KEY` is missing the handler responds 500; text-only requests
fall back to Groq/DeepSeek instead. -/
theorem missing_gemini_key_image_mode_500 (env : Env) (req : Request)
    (o : Oracle) (b : ReqBody) (hm : req.method = "POST")
    (hp : req.parse = some b) (himg : truthyO b.image = true)
    (hkey : truthyEnv env.googleApiKey = false) :
    (handler env req o).resp.status = 500 ∧
    (handler env req o).resp.body =
      jObj
        [("error", jStr
          "Server misconfigured: GOOGLE_API_KEY missing. Camera and upload analysis require Gemini Vision."),
         ("meta", metaJ
           [⟨"gemini", 500,
             "GOOGLE_API_KEY is missing on the server. Image-based modes cannot run."⟩]
           (preferredModelOf b))] := by
  have himg' : ¬ (truthyO b.image = false ∧ safeQueryTextOf b = "") := by
    simp [himg]
  simp [handler, hm, hp, himg', phase1, himg, hkey]

/-- Witness for `missing_gemini_key_image_mode_500` at a concrete image
request. -/
theorem missing_gemini_key_image_mode_500_witness :
    (handler envNoKeys reqImage oracleAllFail).resp.status = 500 ∧
    (handler envNoKeys reqImage oracleAllFail).resp.body =
      jObj
        [("error", jStr
          "Server misconfigured: GOOGLE_API_KEY missing. Camera and upload analysis require Gemini Vision."),
         ("meta", metaJ
           [⟨"gemini", 500,
             "GOOGLE_API_KEY is missing on the server. Image-based modes cannot run."⟩]
           "auto")] :=
  missing_gemini_key_image_mode_500 envNoKeys reqImage oracleAllFail
    { image := some (jStr "data:image/png;base64,AAA"), queryText := none,
      preferredModel := none }
    (by decide) rfl (by decide) (by decide)

theorem resolveShopName_truthy (fs : List (String × JVal)) (sq : String) :
    truthy (resolveShopName fs sq) = true := by
  unfold resolveShopName
  dsimp only
  by_cases h1 : truthy (getKeyD fs "name" jNull) = true
  · rwa [if_pos h1]
  · rw [if_neg h1]
    by_cases h2 : sq = ""
    · rw [if_neg (by simp [h2])]
      decide
    · rw [if_pos h2]
      simp [truthy, bne_iff_ne, h2]

theorem generateShopLinks_of_truthy (v : JVal) (hv : truthy v = true) :
    generateShopLinks v =
      jObj
        [("shopee", jStr ("https://shopee.ph/search?keyword=" ++
            encodeURIComponentStr (jsToString v))),
         ("lazada", jStr ("https://www.lazada.com.ph/tag/" ++
            encodeURIComponentStr (jsToString v) ++ "/")),
         ("amazon", jStr ("https://www.amazon.com/s?k=" ++
            encodeURIComponentStr (jsToString v))),
         ("aliexpress", jStr ("https://www.aliexpress.com/wholesale?SearchText=" ++
            encodeURIComponentStr (jsToString v)))] := by
  simp [generateShopLinks, hv]

theorem getKeyD_eq_of_isSome (fs : List (String × JVal)) (k : String)
    (d : JVal) (h : (getKey fs k).isSome) :
    some (getKeyD fs k d) = getKey fs k := by
  unfold getKeyD
  cases hg : getKey fs k with
  | none => rw [hg] at h; cases h
  | some v => simp

/-- C2: in every 200 response, `shop_links` is an object with exactly the
four keys `shopee`, `lazada`, `amazon`, `aliexpress`, whose values are the
four fixed marketplace URL templates instantiated with the URL-encoded
resolved name (`baseJson.name`, else the trimmed `queryText`, else the
literal `electronics`). -/
theorem shop_links_exact_shape (env : Env) (req : Request) (o : Oracle)
    (h : (handler env req o).resp.status = 200) :
    ∃ fs sq sn,
      (handler env req o).baseFields = some fs ∧
      (handler env req o).safeQT = some sq ∧
      (handler env req o).shopName = some sn ∧
      sn = resolveShopName fs sq ∧
      getKey (bodyFields (handler env req o)) "shop_links" =
        some (jObj
          [("shopee", jStr ("https://shopee.ph/search?keyword=" ++
              encodeURIComponentStr (jsToString sn))),
           ("lazada", jStr ("https://www.lazada.com.ph/tag/" ++
              encodeURIComponentStr (jsToString sn) ++ "/")),
           ("amazon", jStr ("https://www.amazon.com/s?k=" ++
              encodeURIComponentStr (jsToString sn))),
           ("aliexpress",
             jStr ("https://www.aliexpress.com/wholesale?SearchText=" ++
              encodeURIComponentStr (jsToString sn)))]) := by
  obtain ⟨fs0, bk, sq, qw0, evs0, hEq⟩ := handler_200_phase23 env req o h
  rw [hEq]
  obtain ⟨-, hbase, hshop, hsq, -, -, -⟩ :=
    phase23_ghosts env o fs0 bk sq qw0 evs0
  refine ⟨(phase2Fields env o fs0 sq qw0).fields, sq,
    (phase2Fields env o fs0 sq qw0).shopName, hbase, hsq, hshop,
    phase2Fields_shopName env o fs0 sq qw0, ?_⟩
  rw [phase23_bodyFields, finalFields_shop_links]
  have hpres : (getKey (phase2Fields env o fs0 sq qw0).fields
      "shop_links").isSome := by
    rw [phase2Fields_shop_links]; rfl
  have := getKeyD_eq_of_isSome (phase2Fields env o fs0 sq qw0).fields
    "shop_links" jNull hpres
  rw [this, phase2Fields_shop_links,
    generateShopLinks_of_truthy _ (by
      rw [phase2Fields_shopName]
      exact resolveShopName_truthy _ _)]

/-- Witness for `shop_links_exact_shape` at a concrete 200 run. -/
theorem shop_links_exact_shape_witness :
    (handler envNoKeys reqTextAuto oracleAllFail).resp.status = 200 ∧
    (∃ fs sq sn,
      (handler envNoKeys reqTextAuto oracleAllFail).baseFields = some fs ∧
      (handler envNoKeys reqTextAuto oracleAllFail).safeQT = some sq ∧
      (handler envNoKeys reqTextAuto oracleAllFail).shopName = some sn ∧
      sn = resolveShopName fs sq ∧
      getKey (bodyFields (handler envNoKeys reqTextAuto oracleAllFail))
          "shop_links" =
        some (jObj
          [("shopee", jStr ("https://shopee.ph/search?keyword=" ++
              encodeURIComponentStr (jsToString sn))),
           ("lazada", jStr ("https://www.lazada.com.ph/tag/" ++
              encodeURIComponentStr (jsToString sn) ++ "/")),
           ("amazon", jStr ("https://www.amazon.com/s?k=" ++
              encodeURIComponentStr (jsToString sn))),
           ("aliexpress",
             jStr ("https://www.aliexpress.com/wholesale?SearchText=" ++
              encodeURIComponentStr (jsToString sn)))])) :=
  ⟨rfl, shop_links_exact_shape envNoKeys reqTextAuto oracleAllFail rfl⟩

/-- C8 counterexample: a 200 response whose body has no `name` field — the
generation provider returned an empty JSON object and, with
`preferredModel: "gemini"`, no refinement reinstates the schema fields, so
only the server-set fields are present. -/
theorem success_body_may_lack_name :
    (handler envGeminiOnly reqTextGemini oracleGeminiEmpty).resp.status =
      200 ∧
    getKey (bodyFields (handler envGeminiOnly reqTextGemini
      oracleGeminiEmpty)) "name" = none :=
  ⟨rfl, rfl⟩

/-- C8 (amended): every 200 response body contains `real_image`,
`usage_image`, `pinout_image`, `datasheet_url`, `references`, `shop_links`
and `meta`; the generation-schema fields (`name`, `category`, ...) are
present whenever the refined object retains them — the code does not
guarantee them when the provider JSON drops them. -/
theorem success_body_server_fields_present (env : Env) (req : Request)
    (o : Oracle) (h : (handler env req o).resp.status = 200) :
    (∀ k ∈ serverKeys, (getKey (bodyFields (handler env req o)) k).isSome) ∧
    (getKey (bodyFields (handler env req o)) "meta").isSome ∧
    (∀ rv, (handler env req o).refinedV = some rv →
      ∀ k ∈ genKeys, (getKey (spreadFields rv) k).isSome →
        (getKey (bodyFields (handler env req o)) k).isSome) := by
  obtain ⟨fs0, bk, sq, qw0, evs0, hEq⟩ := handler_200_phase23 env req o h
  rw [hEq]
  rw [phase23_bodyFields]
  obtain ⟨-, -, -, -, -, hrv, -⟩ := phase23_ghosts env o fs0 bk sq qw0 evs0
  refine ⟨?_, ?_, ?_⟩
  · intro k hk
    simp only [serverKeys, List.mem_cons, List.not_mem_nil, or_false] at hk
    rcases hk with rfl | rfl | rfl | rfl | rfl | rfl
    · rw [finalFields_real_image]; rfl
    · rw [finalFields_usage_image]; rfl
    · rw [finalFields_pinout_image]; rfl
    · rw [finalFields_datasheet_url]; rfl
    · rw [finalFields_references]; rfl
    · rw [finalFields_shop_links]; rfl
  · rw [finalFields_meta]; rfl
  · intro rv hrv' k hk hsome
    rw [hrv] at hrv'
    injection hrv' with hrv2
    subst hrv2
    simp only [genKeys, List.mem_cons, List.not_mem_nil, or_false] at hk
    rcases hk with rfl | rfl | rfl | rfl | rfl | rfl | rfl | rfl | rfl | rfl <;>
      rw [finalFields_other _ _ _ _ _ (by decide) (by decide) (by decide)
        (by decide) (by decide) (by decide) (by decide) (by decide)] <;>
      exact hsome

/-- Witness for `success_body_server_fields_present` at a concrete 200
run. -/
theorem success_body_server_fields_present_witness :
    (handler envNoKeys reqTextAuto oracleAllFail).resp.status = 200 ∧
    (∀ k ∈ serverKeys,
      (getKey (bodyFields (handler envNoKeys reqTextAuto oracleAllFail))
        k).isSome) :=
  ⟨rfl,
    (success_body_server_fields_present envNoKeys reqTextAuto oracleAllFail
      rfl).1⟩

/-- C9 counterexample: the `meta` key of the refined object does not pass
through to the response — the handler overwrites it with its own
`{quotaWarnings, preferredModel}` object, refuting "every other key of the
refined object passes through". -/
theorem refined_meta_not_passed_through :
    (handler envAllKeys reqTextGroq oracleGroqMeta).resp.status = 200 ∧
    (handler envAllKeys reqTextGroq oracleGroqMeta).refinedV =
      some (jObj [("meta", jStr "x")]) ∧
    getKey (spreadFields (jObj [("meta", jStr "x")])) "meta" =
      some (jStr "x") ∧
    getKey (bodyFields (handler envAllKeys reqTextGroq oracleGroqMeta))
        "meta" =
      some (jObj [("quotaWarnings", jArr []),
        ("preferredModel", jStr "groq")]) ∧
    (jObj [("quotaWarnings", jArr []), ("preferredModel", jStr "groq")] :
        JVal) ≠ jStr "x" :=
  ⟨rfl, rfl, rfl, rfl, by intro hc; cases hc⟩

/-- C9 (amended): in every 200 response the six server-computed fields and
`meta` come from the server regardless of the refinement output; every
other key of the refined object passes through unchanged, except
`official_store`, which is replaced by the base record's value when the
refined value is falsy and the base one truthy. -/
theorem server_fields_overwritten (env : Env) (req : Request) (o : Oracle)
    (h : (handler env req o).resp.status = 200) :
    ∃ fs rv bk,
      (handler env req o).baseFields = some fs ∧
      (handler env req o).refinedV = some rv ∧
      (handler env req o).backendName = some bk ∧
      getKey (bodyFields (handler env req o)) "real_image" =
        getKey fs "real_image" ∧
      getKey (bodyFields (handler env req o)) "usage_image" =
        getKey fs "usage_image" ∧
      getKey (bodyFields (handler env req o)) "pinout_image" =
        getKey fs "pinout_image" ∧
      getKey (bodyFields (handler env req o)) "datasheet_url" =
        getKey fs "datasheet_url" ∧
      getKey (bodyFields (handler env req o)) "references" =
        getKey fs "references" ∧
      getKey (bodyFields (handler env req o)) "shop_links" =
        getKey fs "shop_links" ∧
      getKey (bodyFields (handler env req o)) "meta" =
        some (metaJ (handler env req o).qw bk) ∧
      (∀ k, k ∉ serverKeys → k ≠ "meta" → k ≠ "official_store" →
        getKey (bodyFields (handler env req o)) k =
          getKey (spreadFields rv) k) ∧
      getKey (bodyFields (handler env req o)) "official_store" =
        (if truthy (getKeyD fs "official_store" jNull) ∧
            ¬ truthy (getKeyD (spreadFields rv) "official_store" jNull) then
          some (getKeyD fs "official_store" jNull)
        else getKey (spreadFields rv) "official_store") := by
  obtain ⟨fs0, bk, sq, qw0, evs0, hEq⟩ := handler_200_phase23 env req o h
  rw [hEq]
  obtain ⟨-, hbase, -, -, hbk, hrv, hqw⟩ :=
    phase23_ghosts env o fs0 bk sq qw0 evs0
  refine ⟨(phase2Fields env o fs0 sq qw0).fields, _, bk, hbase, hrv, hbk,
    ?_, ?_, ?_, ?_, ?_, ?_, ?_, ?_, ?_⟩
  · rw [phase23_bodyFields, finalFields_real_image,
      getKeyD_eq_of_isSome _ _ _
        (phase2Fields_server_isSome env o fs0 sq qw0 _ (by decide))]
  · rw [phase23_bodyFields, finalFields_usage_image,
      getKeyD_eq_of_isSome _ _ _
        (phase2Fields_server_isSome env o fs0 sq qw0 _ (by decide))]
  · rw [phase23_bodyFields, finalFields_pinout_image,
      getKeyD_eq_of_isSome _ _ _
        (phase2Fields_server_isSome env o fs0 sq qw0 _ (by decide))]
  · rw [phase23_bodyFields, finalFields_datasheet_url,
      getKeyD_eq_of_isSome _ _ _
        (phase2Fields_server_isSome env o fs0 sq qw0 _ (by decide))]
  · rw [phase23_bodyFields, finalFields_references,
      getKeyD_eq_of_isSome _ _ _
        (phase2Fields_server_isSome env o fs0 sq qw0 _ (by decide))]
  · rw [phase23_bodyFields, finalFields_shop_links,
      getKeyD_eq_of_isSome _ _ _
        (phase2Fields_server_isSome env o fs0 sq qw0 _ (by decide))]
  · rw [phase23_bodyFields, finalFields_meta, hqw]
  · intro k hk hk7 hk8
    simp only [serverKeys, List.mem_cons, List.not_mem_nil, or_false,
      not_or] at hk
    obtain ⟨h1, h2, h3, h4, h5, h6⟩ := hk
    rw [phase23_bodyFields, finalFields_other _ _ _ _ _ h1 h2 h3 h4 h5 h6
      hk7 hk8]
  · rw [phase23_bodyFields, finalFields_official]

/-- Witness for `server_fields_overwritten` at a concrete 200 run. -/
theorem server_fields_overwritten_witness :
    (handler envNoKeys reqTextAuto oracleAllFail).resp.status = 200 ∧
    (∃ fs rv bk,
      (handler envNoKeys reqTextAuto oracleAllFail).baseFields = some fs ∧
      (handler envNoKeys reqTextAuto oracleAllFail).refinedV = some rv ∧
      (handler envNoKeys reqTextAuto oracleAllFail).backendName = some bk ∧
      getKey (bodyFields (handler envNoKeys reqTextAuto oracleAllFail))
          "real_image" = getKey fs "real_image" ∧
      getKey (bodyFields (handler envNoKeys reqTextAuto oracleAllFail))
          "usage_image" = getKey fs "usage_image" ∧
      getKey (bodyFields (handler envNoKeys reqTextAuto oracleAllFail))
          "pinout_image" = getKey fs "pinout_image" ∧
      getKey (bodyFields (handler envNoKeys reqTextAuto oracleAllFail))
          "datasheet_url" = getKey fs "datasheet_url" ∧
      getKey (bodyFields (handler envNoKeys reqTextAuto oracleAllFail))
          "references" = getKey fs "references" ∧
      getKey (bodyFields (handler envNoKeys reqTextAuto oracleAllFail))
          "shop_links" = getKey fs "shop_links" ∧
      getKey (bodyFields (handler envNoKeys reqTextAuto oracleAllFail))
          "meta" =
        some (metaJ (handler envNoKeys reqTextAuto oracleAllFail).qw bk) ∧
      (∀ k, k ∉ serverKeys → k ≠ "meta" → k ≠ "official_store" →
        getKey (bodyFields (handler envNoKeys reqTextAuto oracleAllFail)) k =
          getKey (spreadFields rv) k) ∧
      getKey (bodyFields (handler envNoKeys reqTextAuto oracleAllFail))
          "official_store" =
        (if truthy (getKeyD fs "official_store" jNull) ∧
            ¬ truthy (getKeyD (spreadFields rv) "official_store" jNull) then
          some (getKeyD fs "official_store" jNull)
        else getKey (spreadFields rv) "official_store")) :=
  ⟨rfl, server_fields_overwritten envNoKeys reqTextAuto oracleAllFail rfl⟩

theorem googleImageSearch_evs (env : Env) (q : JVal)
    (out : FetchOut (List CseItem)) (qw : List QuotaWarning) :
    (googleImageSearch env q out qw).2.2 = [Event.cseImage] := by
  unfold googleImageSearch
  repeat' split
  all_goals rfl

theorem serperImageSearch_evs (env : Env) (q : JVal)
    (out : FetchOut (List SerperImg)) (qw : List QuotaWarning) :
    (serperImageSearch env q out qw).2.2 = [Event.serperImage] := by
  unfold serperImageSearch
  repeat' split
  all_goals rfl

theorem googleDatasheet_evs (env : Env) (nm : JVal)
    (out : FetchOut (List RefItem)) (qw : List QuotaWarning) :
    (googleDatasheetAndReferences env nm out qw).2.2 = [Event.cseSearch] := by
  unfold googleDatasheetAndReferences
  repeat' split
  all_goals rfl

theorem serperDatasheet_evs (env : Env) (nm : JVal)
    (out : FetchOut (List RefItem)) (qw : List QuotaWarning) :
    (serperDatasheetSearch env nm out qw).2.2 = [Event.serperSearch] := by
  unfold serperDatasheetSearch
  repeat' split
  all_goals rfl

/-- C7: each lookup tries the primary provider (Google CSE) exactly once
and returns its result when non-empty; Serper is consulted exactly once,
only when the primary yields nothing (for datasheets: no datasheet URL or
no references), filling exactly the missing parts; when both fail the
result degrades to `null`/empty instead of an exception. -/
theorem provider_fallback_single_attempt (env : Env) (q nm : JVal)
    (gI : FetchOut (List CseItem)) (sI : FetchOut (List SerperImg))
    (gD sD : FetchOut (List RefItem)) (qw qw' : List QuotaWarning)
    (hq : truthy q = true) (hn : truthy nm = true) :
    ((googleImageSearch env q gI qw).1.isSome →
      (smartImageSearch env q gI sI qw).1 =
        (googleImageSearch env q gI qw).1 ∧
      (smartImageSearch env q gI sI qw).2.2 = [Event.cseImage]) ∧
    ((googleImageSearch env q gI qw).1 = none →
      (smartImageSearch env q gI sI qw).1 =
        (serperImageSearch env q sI (googleImageSearch env q gI qw).2.1).1 ∧
      (smartImageSearch env q gI sI qw).2.2 =
        [Event.cseImage, Event.serperImage]) ∧
    ((googleDatasheetAndReferences env nm gD qw').1.1.isSome →
      (googleDatasheetAndReferences env nm gD qw').1.2 ≠ [] →
      (fetchDatasheetAndReferences env nm gD sD qw').1 =
        (googleDatasheetAndReferences env nm gD qw').1 ∧
      (fetchDatasheetAndReferences env nm gD sD qw').2.2 =
        [Event.cseSearch]) ∧
    (¬ ((googleDatasheetAndReferences env nm gD qw').1.1.isSome ∧
        (googleDatasheetAndReferences env nm gD qw').1.2 ≠ []) →
      (fetchDatasheetAndReferences env nm gD sD qw').2.2 =
        [Event.cseSearch, Event.serperSearch] ∧
      (fetchDatasheetAndReferences env nm gD sD qw').1.1 =
        (match (googleDatasheetAndReferences env nm gD qw').1.1 with
          | some u => some u
          | none => (serperDatasheetSearch env nm sD
              (googleDatasheetAndReferences env nm gD qw').2.1).1.1) ∧
      (fetchDatasheetAndReferences env nm gD sD qw').1.2 =
        (if (googleDatasheetAndReferences env nm gD qw').1.2 = [] then
          (serperDatasheetSearch env nm sD
            (googleDatasheetAndReferences env nm gD qw').2.1).1.2
        else (googleDatasheetAndReferences env nm gD qw').1.2)) ∧
    ((googleDatasheetAndReferences env nm gD qw').1 = (none, []) →
      (serperDatasheetSearch env nm sD
        (googleDatasheetAndReferences env nm gD qw').2.1).1 = (none, []) →
      (fetchDatasheetAndReferences env nm gD sD qw').1 = (none, [])) := by
  have hge := googleImageSearch_evs env q gI qw
  have hse := serperImageSearch_evs env q sI
    (googleImageSearch env q gI qw).2.1
  have hgd := googleDatasheet_evs env nm gD qw'
  have hsd := serperDatasheet_evs env nm sD
    (googleDatasheetAndReferences env nm gD qw').2.1
  refine ⟨?_, ?_, ?_, ?_, ?_⟩
  · intro hs
    cases hgi : (googleImageSearch env q gI qw).1 with
    | none => rw [hgi] at hs; cases hs
    | some u => simp [smartImageSearch, hq, hgi, hge]
  · intro hgi
    simp [smartImageSearch, hq, hgi, hge, hse]
  · intro hds hrefs
    cases hgi : (googleDatasheetAndReferences env nm gD qw').1.1 with
    | none => rw [hgi] at hds; cases hds
    | some u =>
      unfold fetchDatasheetAndReferences
      rw [if_neg (by simp [hn])]
      rw [if_pos (by exact ⟨by simp [hgi], hrefs⟩)]
      exact ⟨rfl, hgd⟩
  · intro hnf
    unfold fetchDatasheetAndReferences
    rw [if_neg (by simp [hn])]
    rw [if_neg hnf]
    dsimp only
    refine ⟨?_, rfl, rfl⟩
    rw [hsd, hgd]
    rfl
  · intro hg hs
    unfold fetchDatasheetAndReferences
    rw [if_neg (by simp [hn])]
    rw [if_neg (by simp [hg])]
    simp [hg, hs]

/-- Witness for `provider_fallback_single_attempt`: with both providers
failing by HTTP 500, the image lookup consults Google once, falls back to
Serper once, and degrades to `null`. -/
theorem provider_fallback_single_attempt_witness :
    (smartImageSearch envAllKeys (jStr "led") (FetchOut.httpError 500)
      (FetchOut.httpError 500) []).1 =
      (serperImageSearch envAllKeys (jStr "led") (FetchOut.httpError 500)
        (googleImageSearch envAllKeys (jStr "led")
          (FetchOut.httpError 500) []).2.1).1 ∧
    (smartImageSearch envAllKeys (jStr "led") (FetchOut.httpError 500)
      (FetchOut.httpError 500) []).2.2 =
      [Event.cseImage, Event.serperImage] :=
  (provider_fallback_single_attempt envAllKeys (jStr "led") (jStr "led")
    (FetchOut.httpError 500) (FetchOut.httpError 500)
    (FetchOut.httpError 500) (FetchOut.httpError 500) [] []
    (by decide) (by decide)).2.1 (by rfl)

theorem groqDescribeFromText_fallback (env : Env) (sq : String)
    (out : ChatOut) (qw : List QuotaWarning)
    (hgt : ∀ v, out ≠ ChatOut.ok v) :
    (groqDescribeFromText env sq out qw).1 = groqFallbackJson sq := by
  unfold groqDescribeFromText
  by_cases hk : truthyEnv env.groqApiKey = true
  · cases out with
    | ok v => exact absurd rfl (hgt v)
    | httpError s => simp [hk]
    | noContent => simp [hk]
    | exn => simp [hk]
  · simp [hk]

theorem refineStep_groq_fail (env : Env) (o : Oracle) (base : JVal)
    (qw : List QuotaWarning)
    (hgr : ∀ v, o.groqRefineOut ≠ ChatOut.ok v) :
    (refineStep env o "groq" base qw).1 = base := by
  unfold refineStep
  rw [if_neg (by decide), if_pos (Or.inl rfl)]
  unfold groqRefine
  by_cases hk : truthyEnv env.groqApiKey = true
  · cases ho : o.groqRefineOut with
    | ok v => exact absurd ho (hgr v)
    | httpError s => simp [hk, ho]
    | noContent => simp [hk, ho]
    | exn => simp [hk, ho]
  · simp [hk]

/-- C1 (amended): for a valid text-only POST request served by the Groq
text fallback (here `preferredModel: "groq"`), even when every provider
call fails the handler still responds 200 with the non-empty placeholder
record (name and description present and non-empty); image-mode requests
return 429/500 on generation failure instead. -/
theorem text_fallback_survives_provider_failures (env : Env) (o : Oracle)
    (req : Request) (b : ReqBody)
    (hm : req.method = "POST") (hp : req.parse = some b)
    (himg : truthyO b.image = false) (hq : safeQueryTextOf b ≠ "")
    (hpm : preferredModelOf b = "groq")
    (hgt : ∀ v, o.groqText ≠ ChatOut.ok v)
    (hgr : ∀ v, o.groqRefineOut ≠ ChatOut.ok v) :
    (handler env req o).resp.status = 200 ∧
    getKey (bodyFields (handler env req o)) "name" =
      some (jStr (safeQueryTextOf b)) ∧
    safeQueryTextOf b ≠ "" ∧
    getKey (bodyFields (handler env req o)) "description" =
      some (jStr groqFallbackDesc) ∧
    groqFallbackDesc ≠ "" := by
  have hcond : ¬ (¬ truthyO b.image = true ∧ safeQueryTextOf b = "") := by
    intro hc; exact hq hc.2
  have h1 : phase1 env o b.image (safeQueryTextOf b) (preferredModelOf b) =
      Sum.inr
        ⟨(groqDescribeFromText env (safeQueryTextOf b) o.groqText []).1,
         "groq",
         (groqDescribeFromText env (safeQueryTextOf b) o.groqText []).2.1,
         (groqDescribeFromText env (safeQueryTextOf b) o.groqText []).2.2⟩ := by
    unfold phase1
    rw [if_neg (by simp [himg]), hpm, if_pos rfl]
  have hfb := groqDescribeFromText_fallback env (safeQueryTextOf b)
    o.groqText [] hgt
  have hrun : handler env req o =
      phase23 env o (groqFallbackFields (safeQueryTextOf b)) "groq"
        (safeQueryTextOf b)
        (groqDescribeFromText env (safeQueryTextOf b) o.groqText []).2.1
        (Event.parseBody ::
          (groqDescribeFromText env (safeQueryTextOf b) o.groqText []).2.2) := by
    unfold handler
    rw [if_neg (by simp [hm])]
    simp only [hp]
    rw [if_neg hcond]
    simp only [h1, hfb, groqFallbackJson]
  rw [hrun]
  set F := (phase2Fields env o (groqFallbackFields (safeQueryTextOf b))
    (safeQueryTextOf b)
    (groqDescribeFromText env (safeQueryTextOf b) o.groqText []).2.1).fields
    with hF
  have hrf := refineStep_groq_fail env o (jObj F)
    (phase2Fields env o (groqFallbackFields (safeQueryTextOf b))
      (safeQueryTextOf b)
      (groqDescribeFromText env (safeQueryTextOf b) o.groqText []).2.1).qw
    hgr
  have hbody := phase23_bodyFields env o
    (groqFallbackFields (safeQueryTextOf b)) "groq" (safeQueryTextOf b)
    (groqDescribeFromText env (safeQueryTextOf b) o.groqText []).2.1
    (Event.parseBody ::
      (groqDescribeFromText env (safeQueryTextOf b) o.groqText []).2.2)
  rw [← hF] at hbody
  rw [hrf] at hbody
  refine ⟨rfl, ?_, hq, ?_, by decide⟩
  · rw [hbody,
      finalFields_other _ _ _ _ _ (by decide) (by decide) (by decide)
        (by decide) (by decide) (by decide) (by decide) (by decide)]
    show getKey F "name" = _
    rw [hF,
      phase2Fields_passthrough _ _ _ _ _ _ (by decide) (by decide)
        (by decide) (by decide) (by decide) (by decide)]
    simp [groqFallbackFields, getKey, hq]
  · rw [hbody,
      finalFields_other _ _ _ _ _ (by decide) (by decide) (by decide)
        (by decide) (by decide) (by decide) (by decide) (by decide)]
    show getKey F "description" = _
    rw [hF,
      phase2Fields_passthrough _ _ _ _ _ _ (by decide) (by decide)
        (by decide) (by decide) (by decide) (by decide)]
    simp [groqFallbackFields, getKey]

/-- Witness for `text_fallback_survives_provider_failures` at a concrete
all-failing run. -/
theorem text_fallback_survives_provider_failures_witness :
    (handler envNoKeys reqTextGroq oracleAllFail).resp.status = 200 ∧
    getKey (bodyFields (handler envNoKeys reqTextGroq oracleAllFail))
        "name" =
      some (jStr (safeQueryTextOf
        { image := none, queryText := some (jStr "led"),
          preferredModel := some (jStr "groq") })) ∧
    safeQueryTextOf
      { image := none, queryText := some (jStr "led"),
        preferredModel := some (jStr "groq") } ≠ "" ∧
    getKey (bodyFields (handler envNoKeys reqTextGroq oracleAllFail))
        "description" =
      some (jStr groqFallbackDesc) ∧
    groqFallbackDesc ≠ "" :=
  text_fallback_survives_provider_failures envNoKeys oracleAllFail
    reqTextGroq
    { image := none, queryText := some (jStr "led"),
      preferredModel := some (jStr "groq") }
    rfl rfl (by decide) (by decide) (by decide)
    (by intro v h; cases h) (by intro v h; cases h)

/-- C1 counterexample: a valid image-mode POST request on which every
provider call fails responds 500, not 200 — image mode has no placeholder
fallback (and a Gemini quota failure yields 429). -/
theorem image_mode_provider_failure_500 :
    reqImage.method = "POST" ∧
    extractBase64FromDataUrl (jStr "data:image/png;base64,AAA") =
      some ⟨"image/png", "AAA"⟩ ∧
    (handler envAllKeys reqImage oracleAllFail).resp.status = 500 :=
  ⟨rfl, rfl, rfl⟩

theorem phase1_inl_ne405 (env : Env) (o : Oracle) (image : Option JVal)
    (sq pm : String) (rr : RunResult)
    (h : phase1 env o image sq pm = .inl rr) : rr.resp.status ≠ 405 := by
  unfold phase1 at h
  repeat' split at h
  all_goals try dsimp only at h
  all_goals
    first
      | (injection h with h2; subst h2; simp)
      | (exact absurd h (by simp))

theorem bodyMetaQuotaWarnings_catch500 (d : String)
    (qw : List QuotaWarning) (evs : List Event) :
    bodyMetaQuotaWarnings (catch500 d qw evs) = some (qwJ qw) := by
  simp [bodyMetaQuotaWarnings, catch500, bodyFields, getKey]

theorem bodyMetaQuotaWarnings_phase23 (env : Env) (o : Oracle)
    (fs0 : List (String × JVal)) (bk sq : String)
    (qw0 : List QuotaWarning) (evs0 : List Event) :
    bodyMetaQuotaWarnings (phase23 env o fs0 bk sq qw0 evs0) =
      some (qwJ (phase23 env o fs0 bk sq qw0 evs0).qw) := by
  unfold bodyMetaQuotaWarnings
  rw [phase23_bodyFields, finalFields_meta]
  obtain ⟨-, -, -, -, -, -, hqw⟩ := phase23_ghosts env o fs0 bk sq qw0 evs0
  rw [hqw]
  simp [metaJ, getKey]

theorem phase1_inl_meta (env : Env) (o : Oracle) (image : Option JVal)
    (sq pm : String) (rr : RunResult)
    (h : phase1 env o image sq pm = .inl rr) :
    bodyMetaQuotaWarnings rr = some (qwJ rr.qw) := by
  unfold phase1 at h
  repeat' split at h
  all_goals try dsimp only at h
  all_goals
    first
      | (injection h with h2; subst h2
         simp [bodyMetaQuotaWarnings, bodyFields, getKey, metaJ])
      | (exact absurd h (by simp))

theorem groqDescribeFromText_qw_prefix (env : Env) (sq : String)
    (out : ChatOut) (qw : List QuotaWarning) :
    qw <+: (groqDescribeFromText env sq out qw).2.1 := by
  unfold groqDescribeFromText
  repeat' split
  all_goals
    first
      | exact ⟨_, rfl⟩
      | exact List.prefix_refl _

/-- C6: a quota/billing HTTP status is exactly 429, 402 or 403; every
outbound provider call, on such a status, appends an entry naming the
provider, the status and a message to `quotaWarnings` — the CSE and Serper
image and datasheet searches, the Groq and DeepSeek refinements, the Groq
and DeepSeek text descriptions, and the Gemini generation call in both
image mode (429 response) and text mode (Groq fallback), whose quota
condition the code reads off the thrown message; and the handler surfaces
the list in every response body that can follow a provider call (under
`meta.quotaWarnings` for 200 responses and inside the error body's `meta`
otherwise — the 405 response precedes every provider call and carries an
empty list). -/
theorem quota_warnings_recorded_and_surfaced :
    (∀ s, isQuotaStatus s = true ↔ (s = 429 ∨ s = 402 ∨ s = 403)) ∧
    (∀ (env : Env) (q : JVal) (s : Nat) (qw : List QuotaWarning),
      truthyEnv env.cseApiKey = true → truthyEnv env.cseCx = true →
      truthy q = true → isQuotaStatus s = true →
      (googleImageSearch env q (.httpError s) qw).2.1 =
        qw ++ [⟨"google_cse_images", s,
          "Google Custom Search image quota or billing limit reached."⟩]) ∧
    (∀ (env : Env) (q : JVal) (s : Nat) (qw : List QuotaWarning),
      truthyEnv env.serperApiKey = true → truthy q = true →
      isQuotaStatus s = true →
      (serperImageSearch env q (.httpError s) qw).2.1 =
        qw ++ [⟨"serper_images", s,
          "Serper image search quota or billing limit reached."⟩]) ∧
    (∀ (env : Env) (nm : JVal) (s : Nat) (qw : List QuotaWarning),
      truthyEnv env.cseApiKey = true → truthyEnv env.cseCx = true →
      truthy nm = true → isQuotaStatus s = true →
      (googleDatasheetAndReferences env nm (.httpError s) qw).2.1 =
        qw ++ [⟨"google_cse_search", s,
          "Google Custom Search quota or billing limit reached."⟩]) ∧
    (∀ (env : Env) (nm : JVal) (s : Nat) (qw : List QuotaWarning),
      truthyEnv env.serperApiKey = true → truthy nm = true →
      isQuotaStatus s = true →
      (serperDatasheetSearch env nm (.httpError s) qw).2.1 =
        qw ++ [⟨"serper_search", s,
          "Serper search quota or billing limit reached."⟩]) ∧
    (∀ (env : Env) (base : JVal) (s : Nat) (qw : List QuotaWarning),
      truthyEnv env.groqApiKey = true → isQuotaStatus s = true →
      (groqRefine env base (.httpError s) qw).2.1 =
        qw ++ [⟨"groq_refine", s,
          "Groq refinement quota or billing limit reached."⟩]) ∧
    (∀ (env : Env) (base : JVal) (s : Nat) (qw : List QuotaWarning),
      truthyEnv env.deepseekApiKey = true → isQuotaStatus s = true →
      (deepseekRefine env base (.httpError s) qw).2.1 =
        qw ++ [⟨"deepseek_refine", s,
          "DeepSeek refinement quota or billing limit reached."⟩]) ∧
    (∀ (env : Env) (sq : String) (s : Nat) (qw : List QuotaWarning),
      truthyEnv env.groqApiKey = true → isQuotaStatus s = true →
      (groqDescribeFromText env sq (.httpError s) qw).2.1 =
        qw ++ [⟨"groq_text_fallback", s,
          "Groq text-only quota or billing limit reached. Using simple fallback instead."⟩]) ∧
    (∀ (env : Env) (sq : String) (s : Nat) (qw : List QuotaWarning),
      truthyEnv env.deepseekApiKey = true → isQuotaStatus s = true →
      (deepseekDescribeFromText env sq (.httpError s) qw).2.1 =
        qw ++ [⟨"deepseek_text_fallback", s,
          "DeepSeek text quota or billing limit reached. Using simple fallback instead."⟩]) ∧
    (∀ (env : Env) (o : Oracle) (image : Option JVal) (sq pm msg : String),
      truthyO image = true → truthyEnv env.googleApiKey = true →
      extractBase64FromDataUrl (image.getD jNull) ≠ none →
      o.gemini = GemOut.thrown msg → isGemQuotaMsg msg = true →
      ∃ rr, phase1 env o image sq pm = Sum.inl rr ∧
        rr.resp.status = 429 ∧
        rr.qw = [⟨"gemini", 429,
          "Gemini free-tier quota exceeded for model gemini-2.5-flash. Image-based analysis may be unavailable."⟩]) ∧
    (∀ (env : Env) (o : Oracle) (image : Option JVal) (sq pm msg : String),
      truthyO image = false → pm ≠ "groq" → pm ≠ "deepseek" →
      truthyEnv env.googleApiKey = true →
      o.gemini = GemOut.thrown msg → isGemQuotaMsg msg = true →
      ∃ g, phase1 env o image sq pm = Sum.inr g ∧
        [⟨"gemini", 429,
          "Gemini free-tier quota exceeded for text. Falling back to Groq text description."⟩] <+:
          g.qw) ∧
    (∀ (env : Env) (req : Request) (o : Oracle),
      (handler env req o).resp.status = 405 →
      (handler env req o).qw = [] ∧ (handler env req o).events = []) ∧
    (∀ (env : Env) (req : Request) (o : Oracle),
      (handler env req o).resp.status ≠ 405 →
      bodyMetaQuotaWarnings (handler env req o) =
        some (qwJ (handler env req o).qw)) := by
  refine ⟨?_, ?_, ?_, ?_, ?_, ?_, ?_, ?_, ?_, ?_, ?_, ?_, ?_⟩
  · intro s
    simp [isQuotaStatus, Bool.or_eq_true, decide_eq_true_eq, or_assoc]
  · intro env q s qw h1 h2 h3 h4
    simp [googleImageSearch, h1, h2, h3, h4]
  · intro env q s qw h1 h2 h3
    simp [serperImageSearch, h1, h2, h3]
  · intro env nm s qw h1 h2 h3 h4
    simp [googleDatasheetAndReferences, h1, h2, h3, h4]
  · intro env nm s qw h1 h2 h3
    simp [serperDatasheetSearch, h1, h2, h3]
  · intro env base s qw h1 h2
    simp [groqRefine, h1, h2]
  · intro env base s qw h1 h2
    simp [deepseekRefine, h1, h2]
  · intro env sq s qw h1 h2
    simp [groqDescribeFromText, h1, h2]
  · intro env sq s qw h1 h2
    simp [deepseekDescribeFromText, h1, h2]
  · intro env o image sq pm msg h1 h2 h3 h4 h5
    cases he : extractBase64FromDataUrl (image.getD jNull) with
    | none => exact absurd he h3
    | some r =>
      unfold phase1
      rw [if_pos h1, if_neg (by simp [h2]), he]
      dsimp only
      rw [h4]
      dsimp only
      rw [if_pos h5]
      exact ⟨_, rfl, rfl, rfl⟩
  · intro env o image sq pm msg h1 h2 h3 h4 h5 h6
    unfold phase1
    rw [if_neg (by simp [h1]), if_neg h2, if_neg h3,
      if_neg (by simp [h4]), h5]
    dsimp only
    rw [if_pos h6]
    exact ⟨_, rfl, groqDescribeFromText_qw_prefix _ _ _ _⟩
  · intro env req o h405
    obtain ⟨rr, hE⟩ : ∃ rr, handler env req o = rr := ⟨_, rfl⟩
    rw [hE] at h405 ⊢
    unfold handler at hE
    repeat' split at hE
    all_goals subst hE
    all_goals
      first
        | (exact ⟨rfl, rfl⟩)
        | (rename_i rr1 heq1
           have hne := phase1_inl_ne405 _ _ _ _ _ rr1 heq1
           simp_all)
        | (exfalso; revert h405; dsimp only [catch500]; omega)
        | (exfalso; revert h405; dsimp only [phase23]; omega)
  · intro env req o h405
    obtain ⟨rr, hE⟩ : ∃ rr, handler env req o = rr := ⟨_, rfl⟩
    rw [hE] at h405 ⊢
    unfold handler at hE
    repeat' split at hE
    all_goals subst hE
    all_goals
      first
        | (exact absurd rfl h405)
        | (exact bodyMetaQuotaWarnings_phase23 _ _ _ _ _ _ _)
        | (exact bodyMetaQuotaWarnings_catch500 _ _ _)
        | (rename_i rr1 heq1
           have h0 := phase1_inl_meta _ _ _ _ _ rr1 heq1
           simpa [bodyMetaQuotaWarnings, bodyFields] using h0)
        | (simp [bodyMetaQuotaWarnings, bodyFields, getKey, metaJ])

/-- Witness for `quota_warnings_recorded_and_surfaced`: a 429 from the CSE
image search and a 429 from the Groq text description both append their
warning entries, and a concrete 200 run surfaces the list under
`meta.quotaWarnings`. -/
theorem quota_warnings_recorded_and_surfaced_witness :
    (googleImageSearch envAllKeys (jStr "led")
      (FetchOut.httpError 429) []).2.1 =
      [⟨"google_cse_images", 429,
        "Google Custom Search image quota or billing limit reached."⟩] ∧
    (groqDescribeFromText envAllKeys "led" (ChatOut.httpError 429) []).2.1 =
      [⟨"groq_text_fallback", 429,
        "Groq text-only quota or billing limit reached. Using simple fallback instead."⟩] ∧
    bodyMetaQuotaWarnings (handler envNoKeys reqTextAuto oracleAllFail) =
      some (qwJ (handler envNoKeys reqTextAuto oracleAllFail).qw) := by
  obtain ⟨c1, c2, c3, c4, c5, c6, c7, c8, c9, c10, c11, c12, c13⟩ :=
    quota_warnings_recorded_and_surfaced
  refine ⟨?_, ?_, ?_⟩
  · have h := c2 envAllKeys (jStr "led") 429 []
      (by decide) (by decide) (by decide) (by decide)
    simpa using h
  · have h := c8 envAllKeys "led" 429 [] (by decide) (by decide)
    simpa using h
  · exact c13 envNoKeys reqTextAuto oracleAllFail (by decide)

theorem lastPosAux_some (pat xs : List Char) (n p : Nat)
    (h : lastPosAux pat xs n = some p) :
    pat.isPrefixOf (xs.drop p) = true ∧ p ≤ n := by
  induction n with
  | zero =>
    unfold lastPosAux at h
    split at h
    · injection h with h2
      subst h2
      exact ⟨by simpa using (by assumption : pat.isPrefixOf xs = true),
        Nat.le_refl 0⟩
    · cases h
  | succ n ih =>
    unfold lastPosAux at h
    split at h
    · injection h with h2
      subst h2
      exact ⟨by assumption, Nat.le_refl _⟩
    · obtain ⟨h1, h2⟩ := ih h
      exact ⟨h1, Nat.le_succ_of_le h2⟩

theorem lastPosAux_ge (pat xs : List Char) (n j : Nat) (hj : j ≤ n)
    (hpre : pat.isPrefixOf (xs.drop j) = true) :
    ∃ p, lastPosAux pat xs n = some p ∧ j ≤ p := by
  induction n with
  | zero =>
    have hj0 : j = 0 := Nat.le_zero.mp hj
    subst hj0
    refine ⟨0, ?_, Nat.le_refl 0⟩
    unfold lastPosAux
    rw [if_pos (by simpa using hpre)]
  | succ n ih =>
    by_cases hc : pat.isPrefixOf (xs.drop (n + 1)) = true
    · refine ⟨n + 1, ?_, hj⟩
      unfold lastPosAux
      rw [if_pos hc]
    · have hj' : j ≤ n := by
        by_cases hjn : j = n + 1
        · subst hjn; exact absurd hpre hc
        · omega
      obtain ⟨p, hp, hjp⟩ := ih hj'
      refine ⟨p, ?_, hjp⟩
      unfold lastPosAux
      rw [if_neg hc]
      exact hp

theorem extractCore_some (rest ml bl : List Char)
    (h : extractCore rest = some (ml, bl)) :
    rest = ml ++ (b64marker ++ bl) ∧ ml ≠ [] ∧
      rest.all (fun c => ¬ isLineTerm c) = true := by
  unfold extractCore at h
  split at h
  case isFalse => cases h
  case isTrue hall =>
    cases hlp : lastMatchPos b64marker rest with
    | none => rw [hlp] at h; cases h
    | some p =>
      rw [hlp] at h
      dsimp only at h
      by_cases hp0 : p = 0
      · rw [if_pos hp0] at h; cases h
      · rw [if_neg hp0] at h
        injection h with h2
        injection h2 with hml hbl
        subst hml
        subst hbl
        obtain ⟨hpre, -⟩ := lastPosAux_some b64marker rest rest.length p hlp
        obtain ⟨t, ht⟩ := List.isPrefixOf_iff_prefix.mp hpre
        have ht' : t = rest.drop (p + b64marker.length) := by
          have h3 : (b64marker ++ t).drop b64marker.length = t :=
            List.drop_left b64marker t
          rw [ht] at h3
          rw [List.drop_drop] at h3
          exact h3.symm
        have hdropne : rest.drop p ≠ [] := by
          intro he
          rw [he] at hpre
          exact absurd hpre (by decide)
        have hplen : p < rest.length := by
          by_contra hle
          exact hdropne (List.drop_eq_nil_iff.mpr (by omega))
        refine ⟨?_, ?_, hall⟩
        · rw [← ht', ht]
          exact (List.take_append_drop p rest).symm
        · intro he
          have h0 : (List.take p rest).length = 0 := by rw [he]; rfl
          rw [List.length_take] at h0
          omega

theorem extractCore_of_form (m b : List Char) (hm : m ≠ [])
    (hall : (m ++ (b64marker ++ b)).all (fun c => ¬ isLineTerm c) = true) :
    extractCore (m ++ (b64marker ++ b)) ≠ none := by
  unfold extractCore
  rw [if_pos hall]
  have hocc : b64marker.isPrefixOf ((m ++ (b64marker ++ b)).drop m.length) =
      true := by
    rw [List.drop_left m (b64marker ++ b)]
    exact List.isPrefixOf_iff_prefix.mpr ⟨b, rfl⟩
  have hjle : m.length ≤ (m ++ (b64marker ++ b)).length := by
    simp [List.length_append]
  obtain ⟨p, hp, hge⟩ := lastPosAux_ge b64marker (m ++ (b64marker ++ b))
    (m ++ (b64marker ++ b)).length m.length hjle hocc
  unfold lastMatchPos
  rw [hp]
  dsimp only
  have hp0 : ¬ p = 0 := by
    have : 0 < m.length := List.length_pos.mpr hm
    omega
  rw [if_neg hp0]
  simp

theorem strExt (s t : String) (h : s.data = t.data) : s = t := by
  cases s
  cases t
  exact congrArg String.mk h

theorem extract_some_eq (s : String) (r : ExtractedImage)
    (h : extractBase64FromDataUrl (jStr s) = some r) :
    s.data = "data:".data ++ (r.mimeType.data ++ (b64marker ++ r.base64.data)) ∧
    r.mimeType ≠ "" ∧
    r.mimeType.data.all (fun c => ¬ isLineTerm c) = true ∧
    r.base64.data.all (fun c => ¬ isLineTerm c) = true := by
  unfold extractBase64FromDataUrl at h
  dsimp only at h
  by_cases hpre : ("data:".data).isPrefixOf s.data = true
  case neg => rw [if_neg hpre] at h; cases h
  case pos =>
    rw [if_pos hpre] at h
    cases hec : extractCore (s.data.drop 5) with
    | none => rw [hec] at h; cases h
    | some mb =>
      rw [hec] at h
      obtain ⟨ml, bl⟩ := mb
      dsimp only at h
      injection h with h2
      subst h2
      obtain ⟨hrest, hmlne, hall⟩ := extractCore_some _ _ _ hec
      obtain ⟨t0, ht0⟩ := List.isPrefixOf_iff_prefix.mp hpre
      have hdrop : s.data.drop 5 = t0 := by
        have h5 := List.drop_left ("data:".data) t0
        rw [ht0] at h5
        exact h5
      refine ⟨?_, ?_, ?_, ?_⟩
      · have hs : s.data = "data:".data ++ s.data.drop 5 := by
          rw [hdrop]
          exact ht0.symm
        rw [hs, hrest]
      · intro he
        exact hmlne (congrArg String.data he)
      · rw [hrest] at hall
        simp [List.all_append] at hall
        simp [List.all_eq_true]
        exact hall.1
      · rw [hrest] at hall
        simp [List.all_append] at hall
        simp [List.all_eq_true]
        exact hall.2.2

/-- C10 counterexample: a string of the form `data:<mime>;base64,<payload>`
whose payload contains a newline is rejected (the regex dot does not match
line terminators), refuting "returns null exactly when the argument is not
a string of that form". -/
theorem data_url_newline_rejected :
    extractBase64FromDataUrl (jStr "data:image/png;base64,AA\nBB") = none ∧
    "data:image/png;base64,AA\nBB" =
      "data:" ++ "image/png" ++ ";base64," ++ "AA\nBB" ∧
    ("image/png" : String) ≠ "" :=
  ⟨rfl, rfl, by decide⟩

/-- C10 (amended): `extractBase64FromDataUrl` returns a result exactly when
its argument is a string `data:<mime>;base64,<payload>` with a non-empty
mime group and no line terminator after `data:` (the greedy regex splits at
the last `;base64,`); and whenever it returns `{mimeType, base64}`,
`data: + mimeType + ;base64, + base64` reconstructs the input exactly. -/
theorem extract_data_url_iff_roundtrip :
    (∀ v : JVal, extractBase64FromDataUrl v ≠ none ↔
      ∃ m b : String, m ≠ "" ∧
        m.data.all (fun c => ¬ isLineTerm c) = true ∧
        b.data.all (fun c => ¬ isLineTerm c) = true ∧
        v = jStr ("data:" ++ m ++ ";base64," ++ b)) ∧
    (∀ (v : JVal) (r : ExtractedImage),
      extractBase64FromDataUrl v = some r →
      v = jStr ("data:" ++ r.mimeType ++ ";base64," ++ r.base64)) := by
  have hround : ∀ (v : JVal) (r : ExtractedImage),
      extractBase64FromDataUrl v = some r →
      v = jStr ("data:" ++ r.mimeType ++ ";base64," ++ r.base64) := by
    intro v r h
    cases v with
    | jStr s =>
      obtain ⟨hdata, -, -, -⟩ := extract_some_eq s r h
      refine congrArg jStr (strExt _ _ ?_)
      rw [hdata]
      show _ = ((("data:".data ++ r.mimeType.data) ++ b64marker) ++
        r.base64.data)
      simp [List.append_assoc]
    | jNull => cases h
    | jBool b0 => cases h
    | jNum n => cases h
    | jArr xs => cases h
    | jObj fs => cases h
  refine ⟨?_, hround⟩
  intro v
  constructor
  · intro hne
    cases hev : extractBase64FromDataUrl v with
    | none => exact absurd hev hne
    | some r =>
      cases v with
      | jStr s =>
        obtain ⟨hdata, hmne, hma, hba⟩ := extract_some_eq s r hev
        exact ⟨r.mimeType, r.base64, hmne, hma, hba, hround _ _ hev⟩
      | jNull => cases hev
      | jBool b0 => cases hev
      | jNum n => cases hev
      | jArr xs => cases hev
      | jObj fs => cases hev
  · rintro ⟨m, b, hm, hma, hba, rfl⟩
    unfold extractBase64FromDataUrl
    dsimp only
    have hdata : ("data:" ++ m ++ ";base64," ++ b : String).data =
        "data:".data ++ (m.data ++ (b64marker ++ b.data)) := by
      have h1 : ("data:" ++ m ++ ";base64," ++ b : String).data =
          (("data:".data ++ m.data) ++ b64marker) ++ b.data := rfl
      rw [h1, List.append_assoc, List.append_assoc]
    rw [hdata]
    rw [if_pos (List.isPrefixOf_iff_prefix.mpr
      ⟨m.data ++ (b64marker ++ b.data), rfl⟩)]
    have hdrop :
        ("data:".data ++ (m.data ++ (b64marker ++ b.data))).drop 5 =
          m.data ++ (b64marker ++ b.data) :=
      List.drop_left ("data:".data) (m.data ++ (b64marker ++ b.data))
    rw [hdrop]
    have hmne : m.data ≠ [] := by
      intro he
      exact hm (strExt m "" he)
    have hall : (m.data ++ (b64marker ++ b.data)).all
        (fun c => ¬ isLineTerm c) = true := by
      simp [List.all_append] at hma hba ⊢
      refine ⟨hma, ?_, hba⟩
      intro c hc
      fin_cases hc <;> decide
    have hcore := extractCore_of_form m.data b.data hmne hall
    cases hc2 : extractCore (m.data ++ (b64marker ++ b.data)) with
    | none => exact absurd hc2 hcore
    | some mb =>
      obtain ⟨ml, bl⟩ := mb
      simp

/-- Witness for `extract_data_url_iff_roundtrip` at a concrete data URL. -/
theorem extract_data_url_iff_roundtrip_witness :
    (jStr "data:image/png;base64,AAA" : JVal) =
      jStr ("data:" ++ "image/png" ++ ";base64," ++ "AAA") ∧
    extractBase64FromDataUrl (jStr "data:image/png;base64,AAA") ≠ none :=
  ⟨extract_data_url_iff_roundtrip.2 (jStr "data:image/png;base64,AAA")
      ⟨"image/png", "AAA"⟩ rfl,
   (extract_data_url_iff_roundtrip.1 (jStr "data:image/png;base64,AAA")).mpr
      ⟨"image/png", "AAA", by decide, by decide, by decide, rfl⟩⟩
